import Mathlib

/-!
Shallow embedding of the dddPy tachograph-file parser
(`ddd_binary.py`, `ddd_structs.py`, `ddd_parser.py`) and proofs about the
behaviour its specification claims.

Modelling conventions:
* a Python `bytes` value is a `List Nat` whose entries are the byte values;
* a Python `str` is a Lean `String` (Latin-1 decoding maps byte `b` to the
  Unicode code point `b`, which is exactly what Python's `bytes.decode("latin-1")`
  does);
* a Python function that can raise becomes a function into `Except String _`,
  the error string being the exception message;
* Python `while` loops that are not structurally recursive are given an
  explicit fuel argument that is always called with enough fuel
  (each iteration consumes at least one byte, so `data.length + 1` suffices);
* machine integers are `Nat` with explicit truncation where Python truncates.
-/

/-- Python `range(start, stop, step)` for a positive step, as a list. -/
def pyRange (start stop step : Nat) : List Nat :=
  List.range' start ((stop - start + step - 1) / step) step

/-- Big-endian interpretation of a byte list, `int.from_bytes(b, "big")`. -/
def beNat (l : List Nat) : Nat :=
  l.foldl (fun acc b => acc * 256 + b) 0

/-- Little-endian interpretation of a byte list, `int.from_bytes(b, "little")`. -/
def leNat (l : List Nat) : Nat :=
  l.foldr (fun b acc => acc * 256 + b) 0

/-- `n.to_bytes(len, "big")` (mod 256^len; the sources only call it with
values that fit). -/
def natToBytesBE (len n : Nat) : List Nat :=
  match len with
  | 0 => []
  | k + 1 => natToBytesBE k (n / 256) ++ [n % 256]

/-- Fuel-driven helper for the number of base-256 digits. -/
def pyByteLenAux : Nat → Nat → Nat
  | 0, _ => 0
  | fuel + 1, n => if n = 0 then 0 else pyByteLenAux fuel (n / 256) + 1

/-- The length in bytes of a natural number: Python's
`(n.bit_length() + 7) // 8`, i.e. the least `L` with `n < 256 ^ L`. -/
def pyByteLen (n : Nat) : Nat := pyByteLenAux n n

/-- Latin-1 whitespace code points stripped by Python `str.strip()`
(characters `c ≤ 0xFF` with `c.isspace()`). -/
def pyIsSpaceByte (c : Nat) : Bool :=
  c = 0x09 || c = 0x0A || c = 0x0B || c = 0x0C || c = 0x0D ||
  c = 0x1C || c = 0x1D || c = 0x1E || c = 0x1F || c = 0x20 ||
  c = 0x85 || c = 0xA0

/-- Latin-1 code points for which Python `str.isprintable()` holds
(`0x20..0x7E` and `0xA1..0xFF` apart from the soft hyphen `0xAD`). -/
def pyIsPrintableByte (c : Nat) : Bool :=
  (0x20 ≤ c && c ≤ 0x7E) || (0xA1 ≤ c && c ≤ 0xFF && c ≠ 0xAD)

/-- Latin-1 code points for which Python `str.isalnum()` holds:
ASCII alphanumerics plus `ª µ ² ³ ¹ º ¼ ½ ¾` and the accented letters
`0xC0..0xFF` without `× ÷`. -/
def pyIsAlnumByte (c : Nat) : Bool :=
  (0x30 ≤ c && c ≤ 0x39) || (0x41 ≤ c && c ≤ 0x5A) || (0x61 ≤ c && c ≤ 0x7A) ||
  c = 0xAA || c = 0xB5 || c = 0xBA || c = 0xB2 || c = 0xB3 || c = 0xB9 ||
  c = 0xBC || c = 0xBD || c = 0xBE ||
  (0xC0 ≤ c && c ≤ 0xFF && c ≠ 0xD7 && c ≠ 0xF7)

def pyIsSpaceChar (c : Char) : Bool := pyIsSpaceByte c.toNat
def pyIsPrintableChar (c : Char) : Bool := pyIsPrintableByte c.toNat
def pyIsAlnumChar (c : Char) : Bool := pyIsAlnumByte c.toNat

/-- Python `str.strip()` on a Latin-1 string. -/
def pyStrip (s : String) : String :=
  String.mk (((s.toList.dropWhile pyIsSpaceChar).reverse.dropWhile
    pyIsSpaceChar).reverse)

/-- `bytes.rstrip(b"\x00")`. -/
def rstripNul (l : List Nat) : List Nat :=
  (l.reverse.dropWhile (fun b => b = 0)).reverse

/-- `bytes.decode("latin-1")`: byte value = code point.  The sources decode
with `errors="replace"`, which never fires for Latin-1 because every byte is
a valid Latin-1 character. -/
def decodeLatin1 (l : List Nat) : String :=
  String.mk (l.map (fun b => Char.ofNat (b % 256)))

def upperHexDigit (n : Nat) : Char :=
  if n < 10 then Char.ofNat (48 + n) else Char.ofNat (55 + n % 16)

def lowerHexDigit (n : Nat) : Char :=
  if n < 10 then Char.ofNat (48 + n) else Char.ofNat (87 + n % 16)

/-- Python `f"{b:02X}"` for a byte. -/
def hex2Upper (b : Nat) : String :=
  String.mk [upperHexDigit (b / 16 % 16), upperHexDigit (b % 16)]

/-- Python `f"{v:04X}"`. -/
def hex4Upper (v : Nat) : String :=
  hex2Upper (v / 256 % 256) ++ hex2Upper (v % 256)

def hex2Lower (b : Nat) : String :=
  String.mk [lowerHexDigit (b / 16 % 16), lowerHexDigit (b % 16)]

/-- `bytes.hex(" ")`: lowercase hex bytes separated by single spaces. -/
def pyHexSpaced (l : List Nat) : String :=
  String.intercalate " " (l.map hex2Lower)

/-- Decimal print of a natural number, Python `str(n)`. -/
def natDecimal (n : Nat) : String := toString n

/-! ### Civil-calendar conversion, `datetime.fromtimestamp(v, tz=utc)`.

Days-from-epoch to (year, month, day) by the standard civil-calendar
algorithm; all raw values in the sources are 32-bit, far inside the range
where Python's `fromtimestamp` succeeds. -/

def civilFromDays (z : Nat) : Nat × Nat × Nat :=
  let era := (z + 719468) / 146097
  let doe := (z + 719468) % 146097
  let yoe := (doe - doe / 1460 + doe / 36524 - doe / 146096) / 365
  let y := yoe + era * 400
  let doy := doe - (365 * yoe + yoe / 4 - yoe / 100)
  let mp := (5 * doy + 2) / 153
  let d := doy - (153 * mp + 2) / 5 + 1
  let m := if mp < 10 then mp + 3 else mp - 9
  ((if 2 < m then y else y + 1), m, d)

def pad2 (n : Nat) : String :=
  if n < 10 then "0" ++ natDecimal n else natDecimal n

def pad4 (n : Nat) : String :=
  if n < 10 then "000" ++ natDecimal n
  else if n < 100 then "00" ++ natDecimal n
  else if n < 1000 then "0" ++ natDecimal n
  else natDecimal n

/-- `datetime.fromtimestamp(v, tz=timezone.utc).isoformat()` for `0 ≤ v`. -/
def utcIsoOfTimestamp (v : Nat) : String :=
  let days := v / 86400
  let secs := v % 86400
  let (y, m, d) := civilFromDays days
  pad4 y ++ "-" ++ pad2 m ++ "-" ++ pad2 d ++ "T" ++
    pad2 (secs / 3600) ++ ":" ++ pad2 (secs % 3600 / 60) ++ ":" ++
    pad2 (secs % 60) ++ "+00:00"

/-! ### `ddd_binary.py`: the byte cursor. -/

structure ByteReader where
  data : List Nat
  offset : Nat := 0
deriving Repr, DecidableEq

def ByteReader.remaining (r : ByteReader) : Nat := r.data.length - r.offset

def ByteReader.tell (r : ByteReader) : Nat := r.offset

/-- The parser monad: state-passing over the cursor with Python exceptions
as `Except.error` (the error message text). -/
def PM (α : Type) : Type := ByteReader → Except String (α × ByteReader)

instance : Monad PM where
  pure a := fun r => .ok (a, r)
  bind m f := fun r => match m r with
    | .error e => .error e
    | .ok (a, r') => f a r'

def PM.run (m : PM α) (r : ByteReader) : Except String (α × ByteReader) := m r

def pmThrow (msg : String) : PM α := fun _ => .error msg

/-- Read the cursor itself (to call the pure accessors). -/
def getReader : PM ByteReader := fun r => .ok (r, r)

def BR.seek (off : Nat) : PM Unit := fun r =>
  if off ≤ r.data.length then .ok ((), { r with offset := off })
  else .error "Offset out of range."

def BR.skip (count : Nat) : PM Unit := fun r =>
  BR.seek (r.offset + count) r

def BR.read_bytes (count : Nat) : PM (List Nat) := fun r =>
  if r.offset + count ≤ r.data.length then
    .ok ((r.data.drop r.offset).take count, { r with offset := r.offset + count })
  else .error "Not enough bytes to read."

def BR.peek_bytes (count : Nat) : PM (List Nat) := fun r =>
  if r.offset + count ≤ r.data.length then
    .ok ((r.data.drop r.offset).take count, r)
  else .error "Not enough bytes to peek."

def BR.read_u8 : PM Nat := do
  return beNat (← BR.read_bytes 1)

def BR.read_u16_be : PM Nat := do
  return beNat (← BR.read_bytes 2)

def BR.read_u16_le : PM Nat := do
  return leNat (← BR.read_bytes 2)

def BR.read_u24_be : PM Nat := do
  return beNat (← BR.read_bytes 3)

def BR.read_u32_be : PM Nat := do
  return beNat (← BR.read_bytes 4)

def BR.read_u32_le : PM Nat := do
  return leNat (← BR.read_bytes 4)

/-- `read_fixed_str(n)`: read `n` bytes, strip trailing NULs, decode
Latin-1, strip surrounding whitespace. -/
def BR.read_fixed_str (length : Nat) : PM String := do
  let raw ← BR.read_bytes length
  return pyStrip (decodeLatin1 (rstripNul raw))

def bcdDigit (value : Nat) : Char :=
  if value ≤ 9 then Char.ofNat (48 + value) else '?'

def BR.read_bcd (length : Nat) : PM String := do
  let raw ← BR.read_bytes length
  return String.mk (raw.flatMap (fun b => [bcdDigit (b / 16 % 16), bcdDigit (b % 16)]))

def BR.read_time_real_raw : PM Nat := BR.read_u32_be

/-- Run a sub-parser and model Python `try: ... except ValueError: pure d`. -/
def pmCatch (m : PM α) (onErr : α) : PM α := fun r =>
  match m r with
  | .error _ => .ok (onErr, r)
  | .ok res => .ok res


/-! ### `ddd_structs.py`: record types. -/

structure NameValue where
  code_page : Nat
  text : String
deriving Repr, DecidableEq

structure AddressValue where
  code_page : Nat
  text : String
deriving Repr, DecidableEq

structure ExtendedSerialNumber where
  serial_number : Nat
  month_year_bcd : String
  equipment_type : Nat
  manufacturer_code : Nat
deriving Repr, DecidableEq

structure VuSoftwareIdentification where
  version : String
  installation_time_raw : Nat
  installation_time_iso : Option String
deriving Repr, DecidableEq

structure VuIdentification where
  manufacturer_name : NameValue
  manufacturer_address : AddressValue
  part_number : String
  serial_number : ExtendedSerialNumber
  software_identification : VuSoftwareIdentification
  manufacturing_date_raw : Nat
  manufacturing_date_iso : Option String
  approval_number : String
  source_trep : Nat
  source_offset : Nat
  prefix_bytes : Nat
  heuristic : Bool := true
deriving Repr, DecidableEq

structure VehicleRegistrationNumber where
  code_page : Nat
  registration_number : String
deriving Repr, DecidableEq

structure FullCardNumber where
  card_type : Nat
  issuing_nation : Nat
  card_number : String
  card_generation : Nat
deriving Repr, DecidableEq

structure VuDownloadActivityData where
  downloading_time_raw : Nat
  downloading_time_iso : Option String
  card_number : FullCardNumber
  company_name : NameValue
deriving Repr, DecidableEq

structure VuCompanyLock where
  lock_in_time_raw : Nat
  lock_in_time_iso : Option String
  lock_out_time_raw : Option Nat
  lock_out_time_iso : Option String
  company_name : NameValue
  company_address : AddressValue
  company_card_number : FullCardNumber
deriving Repr, DecidableEq

structure VuControlActivity where
  control_type : Nat
  control_time_raw : Nat
  control_time_iso : Option String
  control_card_number : FullCardNumber
  download_period_begin_raw : Nat
  download_period_begin_iso : Option String
  download_period_end_raw : Nat
  download_period_end_iso : Option String
deriving Repr, DecidableEq

structure VuOverview where
  vin : Option String
  registration_number : Option VehicleRegistrationNumber
  current_time_raw : Option Nat
  current_time_iso : Option String
  download_period_begin_raw : Option Nat
  download_period_begin_iso : Option String
  download_period_end_raw : Option Nat
  download_period_end_iso : Option String
  card_slots_status : Option Nat
  last_download : Option VuDownloadActivityData
  company_locks : List VuCompanyLock
  control_activities : List VuControlActivity
deriving Repr, DecidableEq

structure CardApplicationIdentification where
  card_type : Nat
  card_structure_version : Nat
  events_per_type : Nat
  faults_per_type : Nat
  activity_structure_length : Nat
  vehicle_records : Nat
  place_records : Nat
  card_generation : Option Nat
deriving Repr, DecidableEq

structure DrivingLicenceInformation where
  issuing_nation : Nat
  issuing_authority : NameValue
  licence_number : String
deriving Repr, DecidableEq

structure CardIdentification where
  card_number : FullCardNumber
  issuing_authority : NameValue
  issue_date_raw : Nat
  issue_date_iso : Option String
  validity_begin_raw : Nat
  validity_begin_iso : Option String
  expiry_date_raw : Nat
  expiry_date_iso : Option String
  holder_surname : NameValue
  holder_first_names : NameValue
  birth_date_bcd : String
  birth_date_iso : Option String
deriving Repr, DecidableEq

structure CardEventRecord where
  event_type : Nat
  begin_time_raw : Option Nat
  begin_time_iso : Option String
  end_time_raw : Option Nat
  end_time_iso : Option String
  registration_nation : Nat
  registration_number : VehicleRegistrationNumber
deriving Repr, DecidableEq

structure CardSpecificCondition where
  time_raw : Option Nat
  time_iso : Option String
  condition_type : Nat
deriving Repr, DecidableEq

structure CardPlaceRecord where
  time_raw : Option Nat
  time_iso : Option String
  entry_type : Nat
  country : Nat
  region : Nat
  odometer : Option Nat
  gps_time_raw : Option Nat
  gps_time_iso : Option String
  accuracy : Option Nat
  latitude_raw : Option Int
  longitude_raw : Option Int
deriving Repr, DecidableEq

structure CardVehicleRecord where
  first_use_raw : Option Nat
  first_use_iso : Option String
  last_use_raw : Option Nat
  last_use_iso : Option String
  odometer_begin : Option Nat
  odometer_end : Option Nat
  registration_nation : Nat
  registration_number : VehicleRegistrationNumber
  vin : String
deriving Repr, DecidableEq

structure CardVehicleUnitRecord where
  timestamp_raw : Option Nat
  timestamp_iso : Option String
  manufacturer_code : Nat
  device_id : Nat
  software_version : String
deriving Repr, DecidableEq

structure DriverCardSummary where
  application_identification : Option CardApplicationIdentification
  driving_licence : Option DrivingLicenceInformation
  card_identification : Option CardIdentification
  events : List CardEventRecord
  faults : List CardEventRecord
  vehicles_used : List CardVehicleRecord
  places : List CardPlaceRecord
  specific_conditions : List CardSpecificCondition
  vehicle_units : List CardVehicleUnitRecord
deriving Repr, DecidableEq

structure EventRecord where
  event_type : Nat
  record_purpose : Nat
  begin_time_raw : Option Nat
  begin_time_iso : Option String
  end_time_raw : Option Nat
  end_time_iso : Option String
  driver_card_begin : FullCardNumber
  driver_card_end : FullCardNumber
  codriver_card_begin : FullCardNumber
  codriver_card_end : FullCardNumber
  similar_events : Option Nat
deriving Repr, DecidableEq

structure FaultRecord where
  fault_type : Nat
  record_purpose : Nat
  begin_time_raw : Option Nat
  begin_time_iso : Option String
  end_time_raw : Option Nat
  end_time_iso : Option String
  driver_card_begin : FullCardNumber
  driver_card_end : FullCardNumber
  codriver_card_begin : FullCardNumber
  codriver_card_end : FullCardNumber
deriving Repr, DecidableEq

structure VuOverSpeedingControlData where
  last_overspeed_control_time_raw : Option Nat
  last_overspeed_control_time_iso : Option String
  first_overspeed_since_raw : Option Nat
  first_overspeed_since_iso : Option String
  number_of_overspeed_since : Nat
deriving Repr, DecidableEq

structure OverspeedingEventRecord where
  event_type : Nat
  record_purpose : Nat
  begin_time_raw : Option Nat
  begin_time_iso : Option String
  end_time_raw : Option Nat
  end_time_iso : Option String
  max_speed : Nat
  average_speed : Nat
  card_number : FullCardNumber
  similar_events : Nat
deriving Repr, DecidableEq

structure ActivityChangeInfo where
  slot : Nat
  driving_status : Nat
  card_status : Nat
  activity : Nat
  minutes : Nat
deriving Repr, DecidableEq

structure ActivitySegment where
  date_raw : Nat
  date_iso : Option String
  slot : Nat
  start_minute : Nat
  end_minute : Nat
  activity : Nat
  card_status : Nat
  driving_status : Nat
deriving Repr, DecidableEq

structure VuCardIWRecord where
  holder_surname : NameValue
  holder_first_names : NameValue
  card_number : FullCardNumber
  card_expiry_raw : Nat
  card_expiry_iso : Option String
  card_insertion_time_raw : Nat
  card_insertion_time_iso : Option String
  card_withdrawal_time_raw : Option Nat
  card_withdrawal_time_iso : Option String
  slot_number : Nat
  odometer_insertion : Option Nat
  odometer_withdrawal : Option Nat
  previous_vehicle_nation : Option Nat
  previous_vehicle_reg : Option VehicleRegistrationNumber
  previous_withdrawal_time_raw : Option Nat
  previous_withdrawal_time_iso : Option String
deriving Repr, DecidableEq

structure ActivityDay where
  date_raw : Nat
  date_iso : Option String
  odometer_midnight : Option Nat
  changes : List ActivityChangeInfo
  segments : List ActivitySegment
  card_iw_records : List VuCardIWRecord
deriving Repr, DecidableEq

/-! ### `ddd_structs.py`: decoders. -/

/-- Run a parser over a fresh reader on `data` (Python builds
`ByteReader(data)` locally), returning just the value. -/
def runParser (m : PM α) (data : List Nat) : Except String α :=
  match m { data := data, offset := 0 } with
  | .error e => .error e
  | .ok (a, _) => .ok a

def time_real_to_iso_val (value : Nat) : Option String :=
  if value = 0 then none
  else if value ≤ 253402300799 then some (utcIsoOfTimestamp value) else none

def time_real_to_iso : Option Nat → Option String
  | none => none
  | some v => time_real_to_iso_val v

def is_time_real_max (value : Nat) : Bool := 0xFFFFFFFF ≤ value

/-- `_decode_activity_change_info`: bitfields of the 16-bit word,
MSB to LSB `slot:1, drivingStatus:1, cardStatus:1, activity:2, minutes:11`. -/
def decode_activity_change_info (value : Nat) : ActivityChangeInfo :=
  { slot := value / 2 ^ 15 % 2
    driving_status := value / 2 ^ 14 % 2
    card_status := value / 2 ^ 13 % 2
    activity := value / 2 ^ 11 % 4
    minutes := value % 2 ^ 11 }

/-- `_normalize_time_real`: keep a value only if it is neither 0 nor
`>= 0xFFFFFFFF`. -/
def normalize_time_real (value : Nat) : Option Nat × Option String :=
  if value = 0 || is_time_real_max value then (none, none)
  else (some value, time_real_to_iso_val value)

def parse_name : PM NameValue := do
  let code_page ← BR.read_u8
  let text ← BR.read_fixed_str 35
  return { code_page := code_page, text := text }

def parse_address : PM AddressValue := do
  let code_page ← BR.read_u8
  let text ← BR.read_fixed_str 35
  return { code_page := code_page, text := text }

def parse_extended_serial_number : PM ExtendedSerialNumber := do
  let serial_number ← BR.read_u32_be
  let month_year_bcd ← BR.read_bcd 2
  let equipment_type ← BR.read_u8
  let manufacturer_code ← BR.read_u8
  return { serial_number := serial_number, month_year_bcd := month_year_bcd,
           equipment_type := equipment_type, manufacturer_code := manufacturer_code }

def parse_vu_software_identification : PM VuSoftwareIdentification := do
  let version ← BR.read_fixed_str 4
  let installation_time_raw ← BR.read_time_real_raw
  return { version := version, installation_time_raw := installation_time_raw,
           installation_time_iso := time_real_to_iso_val installation_time_raw }

structure VuIdentFields where
  manufacturer_name : NameValue
  manufacturer_address : AddressValue
  part_number : String
  serial_number : ExtendedSerialNumber
  software_identification : VuSoftwareIdentification
  manufacturing_date_raw : Nat
  manufacturing_date_iso : Option String
  approval_number : String
deriving Repr, DecidableEq

/-- `parse_vu_identification` returns the 8-tuple of decoded fields. -/
def parse_vu_identification : PM VuIdentFields := do
  let manufacturer_name ← parse_name
  let manufacturer_address ← parse_address
  let part_number ← BR.read_fixed_str 16
  let serial_number ← parse_extended_serial_number
  let software_identification ← parse_vu_software_identification
  let manufacturing_date_raw ← BR.read_time_real_raw
  let approval_number ← BR.read_fixed_str 8
  return { manufacturer_name := manufacturer_name,
           manufacturer_address := manufacturer_address,
           part_number := part_number, serial_number := serial_number,
           software_identification := software_identification,
           manufacturing_date_raw := manufacturing_date_raw,
           manufacturing_date_iso := time_real_to_iso_val manufacturing_date_raw,
           approval_number := approval_number }

def parse_vehicle_registration_number : PM VehicleRegistrationNumber := do
  let code_page ← BR.read_u8
  let registration_number ← BR.read_fixed_str 13
  return { code_page := code_page, registration_number := registration_number }

def parse_full_card_number_gen2 : PM FullCardNumber := do
  let card_type ← BR.read_u8
  let issuing_nation ← BR.read_u8
  let card_number ← BR.read_fixed_str 16
  let card_generation ← BR.read_u8
  return { card_type := card_type, issuing_nation := issuing_nation,
           card_number := card_number, card_generation := card_generation }

def parse_full_card_number_gen1 : PM FullCardNumber := do
  let card_type ← BR.read_u8
  let issuing_nation ← BR.read_u8
  let card_number ← BR.read_fixed_str 16
  return { card_type := card_type, issuing_nation := issuing_nation,
           card_number := card_number, card_generation := 0 }

def parse_vu_download_activity_data : PM VuDownloadActivityData := do
  let downloading_time_raw ← BR.read_u32_be
  let card_number ← parse_full_card_number_gen2
  let company_name ← parse_name
  return { downloading_time_raw := downloading_time_raw,
           downloading_time_iso := time_real_to_iso_val downloading_time_raw,
           card_number := card_number, company_name := company_name }

def parse_vu_company_lock : PM VuCompanyLock := do
  let lock_in_raw ← BR.read_u32_be
  let lock_out_raw ← BR.read_u32_be
  let company_name ← parse_name
  let company_address ← parse_address
  let company_card_number ← parse_full_card_number_gen2
  return { lock_in_time_raw := lock_in_raw,
           lock_in_time_iso := time_real_to_iso_val lock_in_raw,
           lock_out_time_raw := if is_time_real_max lock_out_raw then none else some lock_out_raw,
           lock_out_time_iso := if is_time_real_max lock_out_raw then none
             else time_real_to_iso_val lock_out_raw,
           company_name := company_name, company_address := company_address,
           company_card_number := company_card_number }

def parse_vu_control_activity : PM VuControlActivity := do
  let control_type ← BR.read_u8
  let control_time_raw ← BR.read_u32_be
  let control_card_number ← parse_full_card_number_gen2
  let download_begin_raw ← BR.read_u32_be
  let download_end_raw ← BR.read_u32_be
  return { control_type := control_type, control_time_raw := control_time_raw,
           control_time_iso := time_real_to_iso_val control_time_raw,
           control_card_number := control_card_number,
           download_period_begin_raw := download_begin_raw,
           download_period_begin_iso := time_real_to_iso_val download_begin_raw,
           download_period_end_raw := download_end_raw,
           download_period_end_iso := time_real_to_iso_val download_end_raw }

def parse_event_record (data : List Nat) : Except String EventRecord :=
  runParser (do
    let event_type ← BR.read_u8
    let record_purpose ← BR.read_u8
    let beginPair := normalize_time_real (← BR.read_u32_be)
    let endPair := normalize_time_real (← BR.read_u32_be)
    let driver_begin ← parse_full_card_number_gen2
    let driver_end ← parse_full_card_number_gen2
    let codriver_begin ← parse_full_card_number_gen2
    let codriver_end ← parse_full_card_number_gen2
    let r ← getReader
    let similar_events ← if 1 ≤ r.remaining then (some <$> BR.read_u8)
      else pure none
    let r2 ← getReader
    let _ ← if 0 < r2.remaining then BR.skip r2.remaining else pure ()
    return { event_type := event_type, record_purpose := record_purpose,
             begin_time_raw := beginPair.1, begin_time_iso := beginPair.2,
             end_time_raw := endPair.1, end_time_iso := endPair.2,
             driver_card_begin := driver_begin, driver_card_end := driver_end,
             codriver_card_begin := codriver_begin, codriver_card_end := codriver_end,
             similar_events := similar_events }) data

def parse_fault_record (data : List Nat) : Except String FaultRecord :=
  runParser (do
    let fault_type ← BR.read_u8
    let record_purpose ← BR.read_u8
    let beginPair := normalize_time_real (← BR.read_u32_be)
    let endPair := normalize_time_real (← BR.read_u32_be)
    let driver_begin ← parse_full_card_number_gen2
    let driver_end ← parse_full_card_number_gen2
    let codriver_begin ← parse_full_card_number_gen2
    let codriver_end ← parse_full_card_number_gen2
    let r2 ← getReader
    let _ ← if 0 < r2.remaining then BR.skip r2.remaining else pure ()
    return { fault_type := fault_type, record_purpose := record_purpose,
             begin_time_raw := beginPair.1, begin_time_iso := beginPair.2,
             end_time_raw := endPair.1, end_time_iso := endPair.2,
             driver_card_begin := driver_begin, driver_card_end := driver_end,
             codriver_card_begin := codriver_begin, codriver_card_end := codriver_end }) data

def parse_overspeed_control_data (data : List Nat) : Except String VuOverSpeedingControlData :=
  runParser (do
    let lastPair := normalize_time_real (← BR.read_u32_be)
    let firstPair := normalize_time_real (← BR.read_u32_be)
    let r ← getReader
    let count ← if 1 ≤ r.remaining then BR.read_u8 else pure 0
    let r2 ← getReader
    let _ ← if 0 < r2.remaining then BR.skip r2.remaining else pure ()
    return { last_overspeed_control_time_raw := lastPair.1,
             last_overspeed_control_time_iso := lastPair.2,
             first_overspeed_since_raw := firstPair.1,
             first_overspeed_since_iso := firstPair.2,
             number_of_overspeed_since := count }) data

def parse_overspeed_event_record (data : List Nat) : Except String OverspeedingEventRecord :=
  runParser (do
    let event_type ← BR.read_u8
    let record_purpose ← BR.read_u8
    let beginPair := normalize_time_real (← BR.read_u32_be)
    let endPair := normalize_time_real (← BR.read_u32_be)
    let max_speed ← BR.read_u8
    let average_speed ← BR.read_u8
    let card_number ← parse_full_card_number_gen2
    let r ← getReader
    let similar_events ← if 1 ≤ r.remaining then BR.read_u8 else pure 0
    let r2 ← getReader
    let _ ← if 0 < r2.remaining then BR.skip r2.remaining else pure ()
    return { event_type := event_type, record_purpose := record_purpose,
             begin_time_raw := beginPair.1, begin_time_iso := beginPair.2,
             end_time_raw := endPair.1, end_time_iso := endPair.2,
             max_speed := max_speed, average_speed := average_speed,
             card_number := card_number, similar_events := similar_events }) data

def parse_vu_card_iw_record (data : List Nat) : Except String VuCardIWRecord :=
  runParser (do
    let holder_surname ← parse_name
    let holder_first_names ← parse_name
    let card_number ← parse_full_card_number_gen2
    let card_expiry_raw ← BR.read_u32_be
    let card_insertion_raw ← BR.read_u32_be
    let odometer_insertion ← BR.read_u24_be
    let slot_number ← BR.read_u8
    let card_withdrawal_raw ← BR.read_u32_be
    let odometer_withdrawal ← BR.read_u24_be
    let previous_nation ← BR.read_u8
    let previous_reg ← parse_vehicle_registration_number
    let previous_withdrawal_raw ← BR.read_u32_be
    return { holder_surname := holder_surname, holder_first_names := holder_first_names,
             card_number := card_number, card_expiry_raw := card_expiry_raw,
             card_expiry_iso := time_real_to_iso_val card_expiry_raw,
             card_insertion_time_raw := card_insertion_raw,
             card_insertion_time_iso := time_real_to_iso_val card_insertion_raw,
             card_withdrawal_time_raw :=
               if is_time_real_max card_withdrawal_raw then none else some card_withdrawal_raw,
             card_withdrawal_time_iso :=
               if is_time_real_max card_withdrawal_raw then none
               else time_real_to_iso_val card_withdrawal_raw,
             slot_number := slot_number,
             odometer_insertion := some odometer_insertion,
             odometer_withdrawal := some odometer_withdrawal,
             previous_vehicle_nation := some previous_nation,
             previous_vehicle_reg := some previous_reg,
             previous_withdrawal_time_raw := some previous_withdrawal_raw,
             previous_withdrawal_time_iso := time_real_to_iso_val previous_withdrawal_raw }) data

/-- `parse_activity_change_infos`: decode consecutive 16-bit BE words;
a trailing odd byte is dropped. -/
def parse_activity_change_infos : List Nat → List ActivityChangeInfo
  | b0 :: b1 :: rest =>
      decode_activity_change_info (b0 * 256 + b1) :: parse_activity_change_infos rest
  | _ => []

/-- The changes of one slot, sorted by `minutes`.  Python's `sorted` is a
stable sort on the key; `List.insertionSort` with the `≤`-relation on
`minutes` is stable in the same sense. -/
def slotChangesSorted (slot : Nat) (changes : List ActivityChangeInfo) :
    List ActivityChangeInfo :=
  List.insertionSort (fun a b => a.minutes ≤ b.minutes)
    (changes.filter (fun c => c.slot = slot))

/-- The inner loop of `build_activity_segments` for one slot: each change
opens a segment ending at the next change's minutes (1440 for the last);
empty segments are skipped. -/
def segmentsOfSlot (date_raw slot : Nat) : List ActivityChangeInfo → List ActivitySegment
  | [] => []
  | c :: rest =>
    let e := match rest.head? with
      | some d => d.minutes
      | none => 1440
    if c.minutes = e then segmentsOfSlot date_raw slot rest
    else { date_raw := date_raw, date_iso := time_real_to_iso (some date_raw),
           slot := slot, start_minute := c.minutes, end_minute := e,
           activity := c.activity, card_status := c.card_status,
           driving_status := c.driving_status } :: segmentsOfSlot date_raw slot rest

def build_activity_segments (date_raw : Nat) (changes : List ActivityChangeInfo) :
    List ActivitySegment :=
  segmentsOfSlot date_raw 0 (slotChangesSorted 0 changes) ++
    segmentsOfSlot date_raw 1 (slotChangesSorted 1 changes)



/-! ### `ddd_parser.py`: constants and header classification. -/

def HEADER_READ_LEN : Nat := 32
def TRANSFER_DATA_POSITIVE_RESPONSE_SID : Nat := 0x76

def _DRIVER_CARD_SIGNATURES : List (List Nat) := [[0x00, 0x02, 0x00, 0x00, 0x19, 0x00]]
def _VU_SIGNATURES : List (List Nat) := [[0x76, 0x21, 0x04, 0x00, 0xCD, 0x00]]

def _TREPS_GEN1 : List Nat := [0x01, 0x02, 0x03, 0x04, 0x05]
def _TREPS_GEN2_V1 : List Nat := [0x21, 0x22, 0x23, 0x24, 0x25]
def _TREPS_GEN2_V2 : List Nat := [0x00, 0x24, 0x31, 0x32, 0x33, 0x35]

def _TREP_DATA_TYPES (trep : Nat) : Option String :=
  if trep = 0x00 then some "Download interface version"
  else if trep = 0x01 then some "Overview"
  else if trep = 0x02 then some "Activities"
  else if trep = 0x03 then some "Events and faults"
  else if trep = 0x04 then some "Detailed speed"
  else if trep = 0x05 then some "Technical data"
  else if trep = 0x21 then some "Overview"
  else if trep = 0x22 then some "Activities"
  else if trep = 0x23 then some "Events and faults"
  else if trep = 0x24 then some "Detailed speed"
  else if trep = 0x25 then some "Technical data"
  else if trep = 0x31 then some "Overview"
  else if trep = 0x32 then some "Activities"
  else if trep = 0x33 then some "Events and faults"
  else if trep = 0x35 then some "Technical data"
  else none

/-- Membership in `_TREP_DATA_TYPES` (the walker's set of valid TREPs). -/
def isValidTrep (trep : Nat) : Bool := (_TREP_DATA_TYPES trep).isSome

def _TECH_TREPS : List Nat := [0x05, 0x25, 0x35]

def _PART_DEFS : List (String × List Nat × Option String) :=
  [("Overview", [0x01, 0x21, 0x31], none),
   ("Activities", [0x02, 0x22, 0x32], none),
   ("Events and faults", [0x03, 0x23, 0x33], none),
   ("Detailed speed", [0x04, 0x24], none),
   ("Technical data", [0x05, 0x25, 0x35], none),
   ("Company locks", [0x05, 0x25, 0x35], some "Contained in Technical data"),
   ("Overspeeding", [0x03, 0x23, 0x33], some "Contained in Events and faults"),
   ("Faults", [0x03, 0x23, 0x33], some "Contained in Events and faults")]

def _PART_STATUS_PROXIES (name : String) : Option String :=
  if name = "Company locks" then some "Technical data"
  else if name = "Overspeeding" then some "Events and faults"
  else if name = "Faults" then some "Events and faults"
  else none

/-- Per-part length rules of `_CARD_PART_DEFS`: `("min", n)` or
`("range", lo, hi)`. -/
inductive CardLengthRule where
  | min (n : Nat)
  | range (lo hi : Nat)
deriving Repr, DecidableEq

/-- `_CARD_PART_DEFS`: name, EF file id (`none` for the synthetic
"File structure" part), whether a signature is required, length rule,
applicable schemes. -/
def _CARD_PART_DEFS :
    List (String × Option Nat × Bool × Option CardLengthRule × List String) :=
  [("File structure", none, false, none, []),
   ("Application identification", some 0x0501, true, some (.min 10), ["gen1", "gen2"]),
   ("Card identification", some 0x0520, true, some (.min 143), ["gen1", "gen2"]),
   ("Driving licence info", some 0x0521, true, some (.min 53), ["gen1", "gen2"]),
   ("Events", some 0x0502, true, some (.min 1), ["gen1", "gen2"]),
   ("Faults", some 0x0503, true, some (.min 1), ["gen1", "gen2"]),
   ("Driver activity", some 0x0504, true, some (.range 5548 13780), ["gen1", "gen2"]),
   ("Vehicles used", some 0x0505, true, some (.min 1), ["gen1", "gen2"]),
   ("Places", some 0x0506, true, some (.min 1), ["gen1", "gen2"]),
   ("Current usage", some 0x0507, true, some (.min 1), ["gen1", "gen2"]),
   ("Control activity", some 0x0508, true, some (.min 1), ["gen1", "gen2"]),
   ("Specific conditions", some 0x0522, true, some (.min 1), ["gen1", "gen2"]),
   ("GNSS places (Gen2)", some 0x0523, true, some (.min 2002), ["gen2"]),
   ("Border crossings (Gen2)", some 0x0524, true, some (.min 6050), ["gen2"]),
   ("Card download", some 0x050E, true, some (.min 4), ["gen1", "gen2"]),
   ("Card certificate", some 0xC100, false, some (.min 194), ["gen1"]),
   ("CA certificate", some 0xC108, false, some (.min 194), ["gen1"]),
   ("Card certificate (Gen2)", some 0xC101, false, some (.min 194), ["gen2"]),
   ("CA certificate (Gen2)", some 0xC109, false, some (.min 194), ["gen2"]),
   ("ICC identification", some 0x0002, false, some (.min 1), ["gen1", "gen2"]),
   ("IC identification", some 0x0005, false, some (.min 1), ["gen1", "gen2"])]

def _CARD_SIGNATURE_LEN : Nat := 128
def _CARD_CERT_LEN : Nat := 194

/-- `_CARD_APPENDIX_SCHEMES`: `(data appendix, sig appendix, sig length)`. -/
def _CARD_APPENDIX_SCHEMES (scheme : String) : Option (Nat × Nat × Nat) :=
  if scheme = "gen1" then some (0, 1, 128)
  else if scheme = "gen2" then some (2, 3, 64)
  else none

def _EU_RSA_N : List Nat :=
  [0xE9, 0x80, 0x76, 0x3A, 0x44, 0x4A, 0x95, 0x25,
   0x0A, 0x95, 0x87, 0x82, 0xD1, 0xD5, 0x4A, 0xCF,
   0xC3, 0x23, 0xD2, 0x5F, 0x39, 0x46, 0xB8, 0x16,
   0xE9, 0x2F, 0xCF, 0x9D, 0x32, 0xB4, 0x2A, 0x26,
   0x13, 0xD1, 0xA3, 0x63, 0xB4, 0xE4, 0x35, 0x32,
   0xA0, 0x26, 0x68, 0x63, 0x29, 0xC8, 0x96, 0x63,
   0xCC, 0xC0, 0x01, 0xF7, 0x27, 0x82, 0x06, 0xB6,
   0xAB, 0x65, 0xAD, 0x28, 0x71, 0x84, 0x8A, 0x68,
   0x0F, 0x6A, 0x57, 0xD8, 0xFD, 0xA1, 0xD7, 0x82,
   0xC9, 0xB5, 0x81, 0x29, 0x03, 0xEA, 0x5B, 0x66,
   0xE2, 0xA9, 0xBE, 0x1D, 0x85, 0xBD, 0xD0, 0xFD,
   0xAE, 0x76, 0xA4, 0x60, 0x88, 0xD7, 0x1A, 0x61,
   0x76, 0xB1, 0xF6, 0xA9, 0x84, 0x19, 0x10, 0x04,
   0x24, 0xDC, 0x56, 0xD0, 0x84, 0x6A, 0xA3, 0xC8,
   0x43, 0x90, 0xD3, 0x51, 0x7A, 0x0F, 0x11, 0x92,
   0xDE, 0xDF, 0xF7, 0x40, 0x92, 0x4C, 0xDB, 0xA7]

def _EU_RSA_E : List Nat := [0x00, 0x00, 0x00, 0x00, 0x00, 0x01, 0x00, 0x01]

def _GEN2_OVERVIEW_SEQUENCE : List (List Nat) :=
  [[0x04], [0x0F], [0x0A], [0x0B], [0x03], [0x13], [0x02], [0x14], [0x10], [0x11], [0x08]]
def _GEN2_ACTIVITIES_SEQUENCE : List (List Nat) :=
  [[0x06], [0x05], [0x0D], [0x01], [0x1C], [0x16], [0x09], [0x08]]
def _GEN2_EVENTS_SEQUENCE : List (List Nat) :=
  [[0x18], [0x15], [0x1A], [0x1B], [0x1E], [0x08]]
def _GEN2_SPEED_SEQUENCE : List (List Nat) := [[0x17], [0x08]]
def _GEN2_TECH_SEQUENCE : List (List Nat) :=
  [[0x19], [0x20], [0x21], [0x0C], [0x0E], [0x17], [0x1F], [0x08]]

def _GEN2_TREP_SEQUENCES (trep : Nat) : Option (List (List Nat)) :=
  if trep = 0x21 then some _GEN2_OVERVIEW_SEQUENCE
  else if trep = 0x22 then some _GEN2_ACTIVITIES_SEQUENCE
  else if trep = 0x23 then some _GEN2_EVENTS_SEQUENCE
  else if trep = 0x24 then some _GEN2_SPEED_SEQUENCE
  else if trep = 0x25 then some _GEN2_TECH_SEQUENCE
  else if trep = 0x31 then some _GEN2_OVERVIEW_SEQUENCE
  else if trep = 0x32 then some _GEN2_ACTIVITIES_SEQUENCE
  else if trep = 0x33 then some _GEN2_EVENTS_SEQUENCE
  else if trep = 0x35 then some _GEN2_TECH_SEQUENCE
  else none

structure DddHeader where
  file_size : Nat
  detected_type : String
  detected_generation : String
  is_valid : Bool
  invalid_reason : Option String
  signature_hex : String
  header_hex : String
  header_length : Nat
  service_id : Option Nat
  trep : Option Nat
  trep_generation : Option String
  trep_data_type : Option String
  download_interface_version : Option String
deriving Repr, DecidableEq

structure DddPart where
  name : String
  status : String
  note : Option String
deriving Repr, DecidableEq

structure DddSummary where
  header : DddHeader
  parts : List DddPart
  vu_identification : Option VuIdentification
  overview : Option VuOverview
  activity_days : List ActivityDay
  events : List EventRecord
  faults : List FaultRecord
  overspeed_control : Option VuOverSpeedingControlData
  overspeed_events : List OverspeedingEventRecord
  driver_card : Option DriverCardSummary
deriving Repr, DecidableEq

def _detect_trep_generation (trep : Nat) : Option String :=
  if trep ∈ _TREPS_GEN1 then some "gen1"
  else if trep ∈ _TREPS_GEN2_V1 then
    (if trep = 0x24 then some "gen2_v1_or_v2" else some "gen2_v1")
  else if trep ∈ _TREPS_GEN2_V2 then
    (if trep = 0x24 then some "gen2_v1_or_v2" else some "gen2_v2")
  else none

def _parse_download_interface_version (data : List Nat) : String :=
  if data.length < 2 then "unknown"
  else
    let gen := data.getD 0 0
    let version := data.getD 1 0
    if gen = 0x01 && version = 0x01 then "gen2_v2 (0x01 0x01)"
    else if gen = 0x01 then "gen2 (0x01 " ++ hex2Upper version ++ ")"
    else "0x" ++ hex2Upper gen ++ " 0x" ++ hex2Upper version

def _detect_file_type (header : List Nat) (service_id trep : Option Nat)
    (trep_generation : Option String) : String × String :=
  if service_id = some TRANSFER_DATA_POSITIVE_RESPONSE_SID && trep.isSome then
    match trep_generation with
    | some g => ("vehicle_unit", g)
    | none => ("vehicle_unit", "unknown")
  else if _DRIVER_CARD_SIGNATURES.any (fun sig => sig.isPrefixOf header) then
    ("driver_card", "unknown")
  else if _VU_SIGNATURES.any (fun sig => sig.isPrefixOf header) then
    ("vehicle_unit", "unknown")
  else ("unknown", "unknown")

def _validate_header (header : List Nat) (service_id trep : Option Nat)
    (trep_generation : Option String) (detected_type : String) :
    Bool × Option String :=
  if header.isEmpty then (false, some "Header (empty)")
  else if service_id = some TRANSFER_DATA_POSITIVE_RESPONSE_SID then
    match trep with
    | none => (false, some "Header (missing TREP#2)")
    | some t =>
      if trep_generation.isNone then
        (false, some ("Header (unknown TREP#2 0x" ++ hex2Upper t ++ ")"))
      else if t = 0x00 && header.length < 4 then
        (false, some "Header (download interface version missing)")
      else (true, none)
  else if detected_type = "driver_card" || detected_type = "vehicle_unit" then
    (true, none)
  else (false, some "Header (unknown signature)")

def _hex_bytes (data : List Nat) : String := pyHexSpaced data

/-- `_parse_header_bytes`: raises `ValueError("File is empty.")` on an empty
header, otherwise classifies the first bytes. -/
def _parse_header_bytes (header : List Nat) (file_size : Nat) :
    Except String DddHeader :=
  if header.isEmpty then .error "File is empty."
  else
    let service_id : Option Nat :=
      if header.headD 0 = TRANSFER_DATA_POSITIVE_RESPONSE_SID then
        some TRANSFER_DATA_POSITIVE_RESPONSE_SID
      else none
    let trep : Option Nat :=
      if service_id.isSome then header.get? 1 else none
    let trep_generation : Option String :=
      if service_id = some TRANSFER_DATA_POSITIVE_RESPONSE_SID && trep.isSome then
        _detect_trep_generation (trep.getD 0)
      else none
    let trep_data_type : Option String :=
      if service_id = some TRANSFER_DATA_POSITIVE_RESPONSE_SID && trep.isSome then
        _TREP_DATA_TYPES (trep.getD 0)
      else none
    let download_interface_version : Option String :=
      if service_id = some TRANSFER_DATA_POSITIVE_RESPONSE_SID && trep = some 0x00 &&
          4 ≤ header.length then
        some (_parse_download_interface_version ((header.drop 2).take 2))
      else none
    let td := _detect_file_type header service_id trep trep_generation
    let vr := _validate_header header service_id trep trep_generation td.1
    .ok { file_size := file_size
          detected_type := td.1
          detected_generation := td.2
          is_valid := vr.1
          invalid_reason := vr.2
          signature_hex := _hex_bytes (header.take 6)
          header_hex := _hex_bytes header
          header_length := header.length
          service_id := service_id
          trep := trep
          trep_generation := trep_generation
          trep_data_type := trep_data_type
          download_interface_version := download_interface_version }

/-! ### Pure cursor helpers used by the structural validators (all their
reads are guarded by `remaining` checks in the source, so they never
raise). -/

/-- `read_u8` at the current offset (guarded call sites only). -/
def readU8At (r : ByteReader) : Nat × ByteReader :=
  (beNat ((r.data.drop r.offset).take 1), { r with offset := r.offset + 1 })

/-- `_skip_exact`: skip `count` bytes if they remain. -/
def _skip_exact (r : ByteReader) (count : Nat) : Bool × ByteReader :=
  if r.remaining < count then (false, r)
  else (true, { r with offset := r.offset + count })

/-- `_read_gen2_record`: read the `(recordType, recordSize, recordCount)`
triple header and skip the payload. -/
def _read_gen2_record (r : ByteReader) : (Nat × Nat × Nat × Bool) × ByteReader :=
  if r.remaining < 5 then ((0, 0, 0, false), r)
  else
    let record_type := beNat ((r.data.drop r.offset).take 1)
    let record_size := beNat ((r.data.drop (r.offset + 1)).take 2)
    let record_count := beNat ((r.data.drop (r.offset + 3)).take 2)
    let r5 : ByteReader := { r with offset := r.offset + 5 }
    let total := record_size * record_count
    if r5.remaining < total then ((record_type, record_size, record_count, false), r5)
    else ((record_type, record_size, record_count, true),
          { r with offset := r.offset + 5 + total })

/-! ### Gen1 / Gen2 structural validators. -/

def _validate_gen1_part (r : ByteReader) (trep : Nat) :
    (Bool × Option String) × ByteReader :=
  if trep = 0x01 then
    match _skip_exact r 194 with
    | (false, r) => ((false, some "Overview certificates truncated"), r)
    | (true, r) =>
    match _skip_exact r 194 with
    | (false, r) => ((false, some "Overview certificates truncated"), r)
    | (true, r) =>
    match _skip_exact r 103 with
    | (false, r) => ((false, some "Overview header truncated"), r)
    | (true, r) =>
    if r.remaining < 1 then ((false, some "Overview locks count missing"), r) else
    match readU8At r with
    | (locks, r) =>
    match _skip_exact r (locks * 98) with
    | (false, r) => ((false, some "Overview locks truncated"), r)
    | (true, r) =>
    if r.remaining < 1 then ((false, some "Overview controls count missing"), r) else
    match readU8At r with
    | (controls, r) =>
    match _skip_exact r (controls * 31) with
    | (false, r) => ((false, some "Overview controls truncated"), r)
    | (true, r) =>
    match _skip_exact r 128 with
    | (false, r) => ((false, some "Overview signature truncated"), r)
    | (true, r) => ((true, some "Structure OK (signature not verified)"), r)
  else if trep = 0x02 then
    match _skip_exact r 7 with
    | (false, r) => ((false, some "Activities header truncated"), r)
    | (true, r) =>
    if r.remaining < 2 then ((false, some "Activities card IW count missing"), r) else
    match readU8At r with
    | (b0, r) =>
    match readU8At r with
    | (b1, r) =>
    match _skip_exact r ((b0 * 256 + b1) * 129) with
    | (false, r) => ((false, some "Activities card IW records truncated"), r)
    | (true, r) =>
    if r.remaining < 2 then ((false, some "Activities change count missing"), r) else
    match readU8At r with
    | (c0, r) =>
    match readU8At r with
    | (c1, r) =>
    match _skip_exact r ((c0 * 256 + c1) * 2) with
    | (false, r) => ((false, some "Activities change records truncated"), r)
    | (true, r) =>
    if r.remaining < 1 then ((false, some "Activities place count missing"), r) else
    match readU8At r with
    | (places, r) =>
    match _skip_exact r (places * 28) with
    | (false, r) => ((false, some "Activities place records truncated"), r)
    | (true, r) =>
    if r.remaining < 2 then ((false, some "Activities condition count missing"), r) else
    match readU8At r with
    | (d0, r) =>
    match readU8At r with
    | (d1, r) =>
    match _skip_exact r ((d0 * 256 + d1) * 5) with
    | (false, r) => ((false, some "Activities condition records truncated"), r)
    | (true, r) =>
    match _skip_exact r 128 with
    | (false, r) => ((false, some "Activities signature truncated"), r)
    | (true, r) => ((true, some "Structure OK (signature not verified)"), r)
  else if trep = 0x03 then
    if r.remaining < 1 then ((false, some "Events faults count missing"), r) else
    match readU8At r with
    | (faults, r) =>
    match _skip_exact r (faults * 82) with
    | (false, r) => ((false, some "Fault records truncated"), r)
    | (true, r) =>
    if r.remaining < 1 then ((false, some "Events count missing"), r) else
    match readU8At r with
    | (events, r) =>
    match _skip_exact r (events * 83) with
    | (false, r) => ((false, some "Event records truncated"), r)
    | (true, r) =>
    match _skip_exact r 9 with
    | (false, r) => ((false, some "Overspeed control truncated"), r)
    | (true, r) =>
    if r.remaining < 1 then ((false, some "Overspeed events count missing"), r) else
    match readU8At r with
    | (overspeed, r) =>
    match _skip_exact r (overspeed * 31) with
    | (false, r) => ((false, some "Overspeed events truncated"), r)
    | (true, r) =>
    if r.remaining < 1 then ((false, some "Time adjustment count missing"), r) else
    match readU8At r with
    | (time_adj, r) =>
    match _skip_exact r (time_adj * 98) with
    | (false, r) => ((false, some "Time adjustment records truncated"), r)
    | (true, r) =>
    match _skip_exact r 128 with
    | (false, r) => ((false, some "Events signature truncated"), r)
    | (true, r) => ((true, some "Structure OK (signature not verified)"), r)
  else if trep = 0x04 then
    if r.remaining < 2 then ((false, some "Speed block count missing"), r) else
    match readU8At r with
    | (e0, r) =>
    match readU8At r with
    | (e1, r) =>
    match _skip_exact r ((e0 * 256 + e1) * 64) with
    | (false, r) => ((false, some "Speed blocks truncated"), r)
    | (true, r) =>
    match _skip_exact r 128 with
    | (false, r) => ((false, some "Speed signature truncated"), r)
    | (true, r) => ((true, some "Structure OK (signature not verified)"), r)
  else if trep = 0x05 then
    match _skip_exact r 88 with
    | (false, r) => ((false, some "Technical data header truncated"), r)
    | (true, r) =>
    match _skip_exact r 8 with
    | (false, r) => ((false, some "Technical data block truncated"), r)
    | (true, r) =>
    match _skip_exact r 12 with
    | (false, r) => ((false, some "Technical data reserved truncated"), r)
    | (true, r) =>
    match _skip_exact r 24 with
    | (false, r) => ((false, some "Technical data block truncated"), r)
    | (true, r) =>
    match _skip_exact r 4 with
    | (false, r) => ((false, some "Technical data reserved truncated"), r)
    | (true, r) =>
    if r.remaining < 1 then ((false, some "Calibration count missing"), r) else
    match readU8At r with
    | (calibrations, r) =>
    match _skip_exact r (calibrations * 167) with
    | (false, r) => ((false, some "Calibration records truncated"), r)
    | (true, r) =>
    match _skip_exact r 128 with
    | (false, r) => ((false, some "Technical data signature truncated"), r)
    | (true, r) => ((true, some "Structure OK (signature not verified)"), r)
  else ((false, some ("Unsupported Gen1 TREP 0x" ++ hex2Upper trep)), r)

def _get_gen2_sequence (trep : Nat) (generation : Option String) :
    Option (List (List Nat)) :=
  match _GEN2_TREP_SEQUENCES trep with
  | none => none
  | some sequence =>
    if generation = some "gen2_v2" && trep = 0x31 then
      some (sequence.set 3 [0x0B, 0x12])
    else some sequence

/-- The `for allowed in sequence` loop of `_validate_gen2_part`. -/
def gen2CheckSequence (seq : List (List Nat)) (r : ByteReader) :
    (Bool × Option String) × ByteReader :=
  match seq with
  | [] => ((true, some "Structure OK (signature not verified)"), r)
  | allowed :: rest =>
    let (res, r') := _read_gen2_record r
    if !res.2.2.2 then ((false, some "Truncated record"), r')
    else if !(allowed.contains res.1) then
      ((false, some ("Unexpected record 0x" ++ hex2Upper res.1)), r')
    else gen2CheckSequence rest r'

/-- The `while reader.remaining() >= 5` scan for the signature record
(`allow_extras` branch); each iteration consumes at least 5 bytes, so
`data.length + 1` fuel always suffices. -/
def gen2ScanSignature (fuel : Nat) (r : ByteReader) :
    (Bool × Option String) × ByteReader :=
  match fuel with
  | 0 => ((false, some "Missing signature record"), r)
  | fuel + 1 =>
    if r.remaining < 5 then ((false, some "Missing signature record"), r)
    else
      let (res, r') := _read_gen2_record r
      if !res.2.2.2 then ((false, some "Truncated record"), r')
      else if res.1 = 0x08 then
        ((true, some "Structure OK (signature not verified)"), r')
      else gen2ScanSignature fuel r'

def _validate_gen2_part (r : ByteReader) (trep : Nat) (generation : Option String) :
    (Bool × Option String) × ByteReader :=
  match _get_gen2_sequence trep generation with
  | none => ((false, some ("Unsupported Gen2 TREP 0x" ++ hex2Upper trep)), r)
  | some sequence =>
    let allow_extras := generation = some "gen2_v2" && (trep = 0x32 || trep = 0x35)
    if allow_extras then
      let (res, r') := gen2CheckSequence sequence.dropLast r
      if !res.1 then (res, r')
      else gen2ScanSignature (r'.data.length + 1) r'
    else gen2CheckSequence sequence r

def _validate_vu_part (r : ByteReader) (trep : Nat) :
    (Bool × Option String) × ByteReader :=
  if trep = 0x00 then
    if r.remaining < 2 then ((false, some "Download interface version truncated"), r)
    else ((true, some "Download interface version (not validated)"),
          { r with offset := r.offset + 2 })
  else
    match _detect_trep_generation trep with
    | some g =>
      if g = "gen1" then _validate_gen1_part r trep
      else if g = "gen2_v1" || g = "gen2_v2" || g = "gen2_v1_or_v2" then
        _validate_gen2_part r trep (some g)
      else ((false, some ("Unknown TREP 0x" ++ hex2Upper trep)), r)
    | none => ((false, some ("Unknown TREP 0x" ++ hex2Upper trep)), r)

/-! ### SHA-1 (used by the certificate verifier). -/

def rotl32 (x n : Nat) : Nat := (x * 2 ^ n + x / 2 ^ (32 - n)) % 2 ^ 32

/-- Group a byte list into 32-bit big-endian words. -/
def bytesToWords32 : List Nat → List Nat
  | a :: b :: c :: d :: rest => (((a * 256 + b) * 256 + c) * 256 + d) :: bytesToWords32 rest
  | _ => []

/-- Extend the 16 chunk words to the 80-word schedule. -/
def sha1Extend (fuel : Nat) (w : List Nat) : List Nat :=
  match fuel with
  | 0 => w
  | fuel + 1 =>
    let n := w.length
    let next := rotl32 ((w.getD (n - 3) 0) ^^^ (w.getD (n - 8) 0) ^^^
      (w.getD (n - 14) 0) ^^^ (w.getD (n - 16) 0)) 1
    sha1Extend fuel (w ++ [next])

def sha1Round (w : List Nat) (st : Nat × Nat × Nat × Nat × Nat) (i : Nat) :
    Nat × Nat × Nat × Nat × Nat :=
  let (a, b, c, d, e) := st
  let f :=
    if i < 20 then (b &&& c) ||| ((2 ^ 32 - 1 - b) &&& d)
    else if i < 40 then b ^^^ c ^^^ d
    else if i < 60 then (b &&& c) ||| (b &&& d) ||| (c &&& d)
    else b ^^^ c ^^^ d
  let k :=
    if i < 20 then 0x5A827999
    else if i < 40 then 0x6ED9EBA1
    else if i < 60 then 0x8F1BBCDC
    else 0xCA62C1D6
  let temp := (rotl32 a 5 + f + e + k + w.getD i 0) % 2 ^ 32
  (temp, a, rotl32 b 30, c, d)

def sha1Chunks (h : Nat × Nat × Nat × Nat × Nat) : List Nat →
    Nat × Nat × Nat × Nat × Nat
  | [] => h
  | x :: xs =>
    let chunk := (x :: xs).take 64
    let rest := xs.drop 63
    let w := sha1Extend 64 (bytesToWords32 chunk)
    let (h0, h1, h2, h3, h4) := h
    let (a, b, c, d, e) := (List.range 80).foldl (sha1Round w) h
    sha1Chunks ((h0 + a) % 2 ^ 32, (h1 + b) % 2 ^ 32, (h2 + c) % 2 ^ 32,
      (h3 + d) % 2 ^ 32, (h4 + e) % 2 ^ 32) rest
termination_by l => l.length
decreasing_by
  simp [List.length_drop]
  omega

/-- SHA-1 of a byte string, as 20 bytes. -/
def sha1 (msg : List Nat) : List Nat :=
  let ml := msg.length * 8
  let z := (56 + 64 - (msg.length + 1) % 64) % 64
  let padded := msg ++ [0x80] ++ List.replicate z 0 ++ natToBytesBE 8 ml
  let (h0, h1, h2, h3, h4) :=
    sha1Chunks (0x67452301, 0xEFCDAB89, 0x98BADCFE, 0x10325476, 0xC3D2E1F0) padded
  natToBytesBE 4 h0 ++ natToBytesBE 4 h1 ++ natToBytesBE 4 h2 ++
    natToBytesBE 4 h3 ++ natToBytesBE 4 h4

/-! ### Certificate chain verification. -/

/-- `_rsa_decode`: `pow(sig, E, N).to_bytes((N.bit_length()+7)//8, "big")`.
Python's `pow` raises `ValueError` when the modulus is 0. -/
def _rsa_decode (signature key_n key_e : List Nat) : Except String (List Nat) :=
  let modulus := beNat key_n
  let exponent := beNat key_e
  if modulus = 0 then .error "pow() 3rd argument cannot be 0"
  else .ok (natToBytesBE (pyByteLen modulus) (beNat signature ^ exponent % modulus))

def _verify_driver_card_certificate (data key_n key_e : List Nat) :
    Except String (Bool × Option (List Nat)) :=
  if data.length < _CARD_CERT_LEN then .ok (false, none)
  else
    let signature := data.take 128
    let cndash := (data.drop 128).take 58
    match _rsa_decode signature key_n key_e with
    | .error e => .error e
    | .ok decoded =>
      if decoded.length ≠ _CARD_SIGNATURE_LEN then .ok (false, none)
      else if decoded.headD 0 ≠ 0x6A || decoded.getLastD 0 ≠ 0xBC then .ok (false, none)
      else
        let crdash := (decoded.drop 1).take 106
        let hdash := (decoded.drop 107).take 20
        let content := crdash ++ cndash
        if sha1 content ≠ hdash then .ok (false, none)
        else .ok (true, some content)

def _verify_driver_card_certificates (ca_data card_data : List Nat) :
    Except String (Bool × Option String) :=
  if ca_data.length < _CARD_CERT_LEN || card_data.length < _CARD_CERT_LEN then
    .ok (false, some "Certificate data truncated")
  else
    match _verify_driver_card_certificate ca_data _EU_RSA_N _EU_RSA_E with
    | .error e => .error e
    | .ok (ca_ok, ca_content) =>
      match ca_content with
      | none => .ok (false, some "CA certificate invalid")
      | some content =>
        if !ca_ok then .ok (false, some "CA certificate invalid")
        else
          let member_key_n := (content.drop 28).take 128
          let member_key_e := (content.drop 156).take 8
          if member_key_n.length ≠ 128 || member_key_e.length ≠ 8 then
            .ok (false, some "Member state key invalid")
          else
            match _verify_driver_card_certificate card_data member_key_n member_key_e with
            | .error e => .error e
            | .ok (card_ok, _) =>
              if !card_ok then .ok (false, some "Card certificate invalid")
              else .ok (true, none)

/-! ### Driver-card EF walker. -/

structure CardEntry where
  file_id : Nat
  appendix : Nat
  length : Nat
  offset : Nat
  data : List Nat
deriving Repr, DecidableEq

/-- The `while offset + 5 <= len(data)` loop of `_parse_card_ef_files`;
each iteration advances by at least 5 bytes. -/
def cardEfLoop (fuel : Nat) (data : List Nat) (offset : Nat)
    (acc : List CardEntry) : List CardEntry × Nat × Bool :=
  match fuel with
  | 0 => (acc.reverse, offset, false)
  | fuel + 1 =>
    if offset + 5 ≤ data.length then
      let file_id := beNat ((data.drop offset).take 2)
      let appendix := data.getD (offset + 2) 0
      let length := beNat ((data.drop (offset + 3)).take 2)
      let e := offset + 5 + length
      if data.length < e then (acc.reverse, offset, true)
      else
        cardEfLoop fuel data e
          ({ file_id := file_id, appendix := appendix, length := length,
             offset := offset, data := (data.drop (offset + 5)).take length } :: acc)
    else (acc.reverse, offset, false)

/-- `_parse_card_ef_files`: returns `(entries, trailing, truncated)`. -/
def _parse_card_ef_files (data : List Nat) : List CardEntry × Bool × Bool :=
  let res := cardEfLoop (data.length + 1) data 0 []
  (res.1, res.2.1 ≠ data.length, res.2.2)

def _validate_card_length (length : Nat) (rule : CardLengthRule) : Bool :=
  match rule with
  | .min n => n ≤ length
  | .range lo hi => lo ≤ length && length ≤ hi

def combineSchemeNotes (rs : List (String × Bool × List String)) : Option String :=
  let combined := rs.filterMap (fun t =>
    if t.2.2.isEmpty then none
    else some ((if t.1 = "gen1" then "Gen1" else "Gen2") ++ ": " ++
      String.intercalate ", " t.2.2))
  if combined.isEmpty then none else some (String.intercalate "; " combined)

/-- One scheme's pass of `_validate_card_entries`: `none` exactly when the
scheme is skipped (`continue`). -/
def schemeResult (entries : List CardEntry) (requires_sig : Bool)
    (rule : Option CardLengthRule) (scheme : String) :
    Option (String × Bool × List String) :=
  match _CARD_APPENDIX_SCHEMES scheme with
  | none => none
  | some info =>
    let data_appendix := info.1
    let sig_appendix := info.2.1
    let sig_len := info.2.2
    let data_entries := entries.filter (fun e => e.appendix == data_appendix)
    let sig_entries := entries.filter (fun e => e.appendix == sig_appendix)
    if data_entries.isEmpty && sig_entries.isEmpty then none
    else
      let notes0 : List String :=
        (if 1 < data_entries.length then ["Duplicate data entries"] else []) ++
        (if 1 < sig_entries.length then ["Duplicate signature entries"] else [])
      let step1 : Bool × List String :=
        match data_entries.head? with
        | none => (false, notes0 ++ ["Missing data appendix"])
        | some e =>
          match rule with
          | some ru =>
            if !_validate_card_length e.length ru then
              (false, notes0 ++ ["Unexpected length"])
            else (true, notes0)
          | none => (true, notes0)
      let step2 : Bool × List String :=
        if requires_sig then
          match sig_entries.head? with
          | none => (false, step1.2 ++ ["Missing signature appendix"])
          | some g =>
            if g.length ≠ sig_len then (false, step1.2 ++ ["Invalid signature length"])
            else step1
        else step1
      some (scheme, step2)

def _validate_card_entries (entries : List CardEntry) (requires_sig : Bool)
    (rule : Option CardLengthRule) (schemes : List String) :
    String × Option String :=
  if entries.isEmpty then ("missing", none)
  else
    let scheme_results := schemes.filterMap (schemeResult entries requires_sig rule)
    if scheme_results.isEmpty then ("missing", none)
    else if scheme_results.any (fun t => t.2.1) then
      ("valid", combineSchemeNotes scheme_results)
    else ("invalid", combineSchemeNotes scheme_results)

def entriesById (entries : List CardEntry) (file_id : Nat) : List CardEntry :=
  entries.filter (fun e => e.file_id == file_id)

def _get_card_file_entry (entries : List CardEntry) (file_id : Nat) :
    List Nat → Option CardEntry
  | [] => none
  | ap :: rest =>
    match (entriesById entries file_id).find? (fun e => e.appendix == ap) with
    | some e => some e
    | none => _get_card_file_entry entries file_id rest

def _get_card_file_data (entries : List CardEntry) (file_id : Nat)
    (appendices : List Nat) : Option (List Nat) :=
  (_get_card_file_entry entries file_id appendices).map (fun e => e.data)

def cardKnownIds : List Nat :=
  _CARD_PART_DEFS.filterMap (fun t => t.2.1)

def _validate_driver_card_parts (data : List Nat) : Except String (List DddPart) :=
  let efres := _parse_card_ef_files data
  let entries := efres.1
  let trailing := efres.2.1
  let truncated := efres.2.2
  let unknown_ids :=
    (List.insertionSort (fun a b => a ≤ b)
      ((entries.filter (fun e =>
        (e.appendix = 0 || e.appendix = 1) && !(cardKnownIds.contains e.file_id))).map
        (fun e => e.file_id)).dedup)
  let structure_note_parts :=
    (if truncated then ["Truncated file entry"] else []) ++
    (if trailing then ["Trailing bytes after last file entry"] else []) ++
    (if unknown_ids.isEmpty then []
     else ["Unknown EF file IDs: " ++
       String.intercalate ", " (unknown_ids.map (fun v => "0x" ++ hex4Upper v))])
  let structure_note :=
    if structure_note_parts.isEmpty then none
    else some (String.intercalate "; " structure_note_parts)
  let cert_ca_data := _get_card_file_data entries 0xC108 [0]
  let cert_card_data := _get_card_file_data entries 0xC100 [0]
  let certStep : Except String (Option (Bool × Option String)) :=
    match cert_ca_data, cert_card_data with
    | some ca, some card =>
      if !ca.isEmpty && !card.isEmpty then
        match _verify_driver_card_certificates ca card with
        | .error e => .error e
        | .ok res => .ok (some res)
      else .ok none
    | _, _ => .ok none
  match certStep with
  | .error e => .error e
  | .ok cert_chain =>
    .ok (_CARD_PART_DEFS.map (fun t =>
      let name := t.1
      match t.2.1 with
      | none =>
        { name := name,
          status := if !truncated && !trailing then "valid" else "invalid",
          note := structure_note }
      | some file_id =>
        let requires_sig := t.2.2.1
        let rule := t.2.2.2.1
        let schemes := t.2.2.2.2
        let sn := _validate_card_entries (entriesById entries file_id) requires_sig rule schemes
        let notes0 : List String := match sn.2 with | some n => [n] | none => []
        let chainInvalid := match cert_chain with
          | some (false, _) => true
          | _ => false
        let chainNote : List String := match cert_chain with
          | some (false, some n) => [n]
          | _ => []
        let status1 := if (file_id = 0xC108 || file_id = 0xC100) && chainInvalid
          then "invalid" else sn.1
        let notes1 := if (file_id = 0xC108 || file_id = 0xC100) && chainInvalid
          then notes0 ++ chainNote else notes0
        let notes2 := if (file_id = 0xC101 || file_id = 0xC109) && status1 = "valid"
          then notes1 ++ ["ECC certificate not verified"] else notes1
        { name := name, status := status1,
          note := if notes2.isEmpty then none
            else some (String.intercalate "; " notes2) }))

/-! ### VU stream walker (`_validate_parts`). -/

structure PartStat where
  count : Nat
  invalid : Nat
  notes : List String
deriving Repr, DecidableEq

def statsInit : List (String × PartStat) :=
  _PART_DEFS.map (fun t => (t.1, { count := 0, invalid := 0, notes := [] }))

def statsGet (stats : List (String × PartStat)) (name : String) : Option PartStat :=
  (stats.find? (fun p => p.1 == name)).map (fun p => p.2)

def statsSet (stats : List (String × PartStat)) (name : String)
    (f : PartStat → PartStat) : List (String × PartStat) :=
  stats.map (fun p => if p.1 == name then (p.1, f p.2) else p)

def _append_note (stats : List (String × PartStat)) (part_name : String)
    (note : String) (invalid : Bool) : List (String × PartStat) :=
  match statsGet stats part_name with
  | none => stats
  | some _ =>
    statsSet stats part_name (fun st =>
      { count := if st.count = 0 then 1 else st.count,
        invalid := if invalid then st.invalid + 1 else st.invalid,
        notes := st.notes ++ [note] })

/-- The stats update of the walker body for a recognised part label. -/
def statsRecordPart (stats : List (String × PartStat)) (part_name : String)
    (ok : Bool) (note : Option String) : List (String × PartStat) :=
  match statsGet stats part_name with
  | none => stats
  | some _ =>
    statsSet stats part_name (fun st =>
      if ok then
        { st with
          count := st.count + 1
          notes := (match note with
            | some n => if st.notes.contains n then st.notes else st.notes ++ [n]
            | none => st.notes) }
      else
        { count := st.count + 1, invalid := st.invalid + 1,
          notes := st.notes ++ [note.getD "Invalid structure"] })

def _resync_to_next_part (r : ByteReader) : Bool × ByteReader :=
  match (pyRange r.offset (r.data.length - 1) 1).find? (fun pos =>
      (r.data.getD pos 0 == TRANSFER_DATA_POSITIVE_RESPONSE_SID) &&
      isValidTrep (r.data.getD (pos + 1) 0)) with
  | some pos => (true, { r with offset := pos })
  | none => (false, r)

/-- The `while reader.remaining() > 0` walker loop of `_validate_parts`;
every iteration strictly advances the cursor, so `data.length + 1` fuel
suffices.  (The `try/except ValueError` around `_validate_vu_part` is dead:
every read in the validators is guarded by a `remaining` check.) -/
def _validate_parts_loop (fuel : Nat) (r : ByteReader)
    (stats : List (String × PartStat)) : List (String × PartStat) :=
  match fuel with
  | 0 => stats
  | fuel + 1 =>
    if r.remaining = 0 then stats
    else if r.remaining < 2 then
      _append_note stats "Overview" "Trailing bytes after last part" false
    else
      let (sid, r1) := readU8At r
      if sid ≠ TRANSFER_DATA_POSITIVE_RESPONSE_SID then
        let stats1 := _append_note stats "Overview"
          ("Missing SID at offset " ++ natDecimal (r1.tell - 1)) true
        let (found, r2) := _resync_to_next_part r1
        if found then _validate_parts_loop fuel r2 stats1 else stats1
      else
        let (trep, r2) := readU8At r1
        let part_label := _TREP_DATA_TYPES trep
        let vres := _validate_vu_part r2 trep
        let r3 := vres.2
        let ok0 := vres.1.1
        let note0 := vres.1.2
        let okNote : Bool × Option String :=
          if ok0 && 0 < r3.remaining && r3.data.getD r3.offset 0 ≠
              TRANSFER_DATA_POSITIVE_RESPONSE_SID then
            (false, some "Unexpected bytes after part")
          else (ok0, note0)
        let stats1 := match part_label with
          | none => stats
          | some part_name => statsRecordPart stats part_name okNote.1 okNote.2
        if !okNote.1 then
          let (found, r4) := _resync_to_next_part r3
          if found then _validate_parts_loop fuel r4 stats1 else stats1
        else _validate_parts_loop fuel r3 stats1

def _resolve_part_status (count invalid : Nat) : String :=
  if count = 0 then "missing" else if 0 < invalid then "invalid" else "valid"

def _build_part_note (stat : PartStat) (base_note : Option String) : Option String :=
  let notes1 :=
    if 0 < stat.count then
      (if 0 < stat.invalid then
        ["Segments valid: " ++ natDecimal (stat.count - stat.invalid) ++ "/" ++
         natDecimal stat.count]
      else if 1 < stat.count then ["Segments: " ++ natDecimal stat.count]
      else [])
    else []
  let notes2 := notes1 ++ stat.notes ++
    (match base_note with | some b => [b] | none => [])
  if notes2.isEmpty then none else some (String.intercalate "; " notes2)

def _validate_parts (data : List Nat) (header : DddHeader) :
    Except String (List DddPart) :=
  if header.detected_type = "driver_card" then _validate_driver_card_parts data
  else if header.detected_type ≠ "vehicle_unit" then
    let note := if header.detected_type = "driver_card" then "Driver card file"
      else "Unknown file type"
    .ok (_PART_DEFS.map (fun t =>
      { name := t.1, status := "not_applicable", note := some note }))
  else
    let stats := _validate_parts_loop (data.length + 1) { data := data, offset := 0 }
      statsInit
    .ok (_PART_DEFS.map (fun t =>
      let stat_name := (_PART_STATUS_PROXIES t.1).getD t.1
      match statsGet stats stat_name with
      | none => { name := t.1, status := "missing", note := t.2.2 }
      | some stat =>
        { name := t.1, status := _resolve_part_status stat.count stat.invalid,
          note := _build_part_note stat t.2.2 }))

/-! ### Driver-card summary parsing. -/

def _looks_like_time_real (value : Nat) : Bool :=
  946684800 ≤ value && value ≤ 1893456000

def _decode_signed_24 (value : Nat) : Int :=
  if value &&& 0x800000 ≠ 0 then (value : Int) - 0x1000000 else (value : Int)

def _looks_like_card_number (value : String) : Bool :=
  let stripped := pyStrip value
  if stripped.toList.length < 6 then false
  else 4 ≤ (stripped.toList.filter pyIsAlnumChar).length

def _decode_birth_date (raw : List Nat) : String :=
  if raw.length ≠ 4 then ""
  else String.join (raw.flatMap (fun b => [natDecimal (b / 16 % 16), natDecimal (b % 16)]))

def _bcd_date_to_iso (value : String) : Option String :=
  if value.toList.length ≠ 8 ||
      !(value.toList.all (fun c => 48 ≤ c.toNat && c.toNat ≤ 57)) then none
  else
    let l := value.toList
    some (String.mk (l.take 4) ++ "-" ++ String.mk ((l.drop 4).take 2) ++ "-" ++
      String.mk ((l.drop 6).take 2))

/-- `while` loop of `_parse_driver_card_segments`: first-wins map of
`fileID -> payload`; every iteration advances by `4 + length ≥ 5`. -/
def cardSegLoop (fuel : Nat) (data : List Nat) (offset : Nat)
    (acc : List (Nat × List Nat)) : List (Nat × List Nat) :=
  match fuel with
  | 0 => acc
  | fuel + 1 =>
    if offset + 4 ≤ data.length then
      let file_id := beNat ((data.drop offset).take 2)
      let length := beNat ((data.drop (offset + 2)).take 2)
      if length = 0 then acc
      else
        let e := offset + 4 + length
        if data.length < e then acc
        else
          let acc' :=
            if (acc.find? (fun p => p.1 == file_id)).isSome then acc
            else acc ++ [(file_id, (data.drop (offset + 4)).take length)]
          cardSegLoop fuel data e acc'
    else acc

def _parse_driver_card_segments (data : List Nat) : List (Nat × List Nat) :=
  if data.length < 10 then [] else cardSegLoop (data.length + 1) data 6 []

def segGet (segs : List (Nat × List Nat)) (fid : Nat) : List Nat :=
  ((segs.find? (fun p => p.1 == fid)).map (fun p => p.2)).getD []

/-- `bytes.find(needle, start)` for a two-byte needle. -/
def pyFind2 (data : List Nat) (hi lo start : Nat) : Option Nat :=
  (List.range data.length).find? (fun i =>
    decide (start ≤ i) && decide (i + 2 ≤ data.length) &&
    data.getD i 0 == hi && data.getD (i + 1) 0 == lo)

/-- `while True` loop of `_find_driver_card_tag_record`; the search start
strictly increases each iteration. -/
def findTagLoop (fuel : Nat) (data : List Nat) (hi lo min_length : Nat)
    (max_length : Option Nat) (start : Nat) : Option (Nat × Nat) :=
  match fuel with
  | 0 => none
  | fuel + 1 =>
    match pyFind2 data hi lo start with
    | none => none
    | some idx =>
      let next := findTagLoop fuel data hi lo min_length max_length (idx + 1)
      if idx + 5 ≤ data.length then
        let length := beNat ((data.drop (idx + 2)).take 3)
        if min_length ≤ length &&
            (match max_length with | none => true | some m => length ≤ m) &&
            idx + 5 + length ≤ data.length then
          some (idx + 5, length)
        else next
      else next

def _find_driver_card_tag_record (data : List Nat) (record_id min_length : Nat)
    (max_length : Option Nat) : Option (Nat × Nat) :=
  if data.isEmpty then none
  else findTagLoop (data.length + 1) data (record_id / 256 % 256) (record_id % 256)
    min_length max_length 0

def _parse_card_application_identification (data : List Nat)
    (entry : Option CardEntry) : Option CardApplicationIdentification :=
  let pl : Option (List Nat × Nat × Option Nat) :=
    match entry with
    | none =>
      match _find_driver_card_tag_record data 0x0501 10 (some 17) with
      | none => none
      | some (start, length) => some ((data.drop start).take length, length, none)
    | some e => some (e.data, e.length, some e.appendix)
  match pl with
  | none => none
  | some (payload, length, appendix) =>
    if payload.length < 10 then none
    else
      let card_type := payload.getD 0 0
      if !(1 ≤ card_type && card_type ≤ 6) then none
      else
        let place_records :=
          if 11 ≤ length then beNat ((payload.drop 9).take 2) else payload.getD 9 0
        some { card_type := card_type
               card_structure_version := beNat ((payload.drop 1).take 2)
               events_per_type := payload.getD 3 0
               faults_per_type := payload.getD 4 0
               activity_structure_length := beNat ((payload.drop 5).take 2)
               vehicle_records := beNat ((payload.drop 7).take 2)
               place_records := place_records
               card_generation :=
                 if appendix = some 2 then some 2
                 else if appendix = some 0 then some 1 else none }

def _parse_driving_licence_information (data : List Nat) :
    Except String (Option DrivingLicenceInformation) :=
  match _find_driver_card_tag_record data 0x0521 53 (some 80) with
  | none => .ok none
  | some (start, length) =>
    if length < 53 then .ok none
    else
      let p : PM (NameValue × Nat × String) := do
        let _ ← BR.seek start
        let authority ← parse_name
        let issuing_nation ← BR.read_u8
        let licence_number ← BR.read_fixed_str 16
        pure (authority, issuing_nation, licence_number)
      match p { data := data, offset := 0 } with
      | .error e => .error e
      | .ok ((authority, issuing_nation, licence_number), _) =>
        if authority.text.isEmpty || licence_number.isEmpty then .ok none
        else .ok (some { issuing_nation := issuing_nation,
                         issuing_authority := authority,
                         licence_number := licence_number })

def _parse_card_identification (data : List Nat)
    (card_app : Option CardApplicationIdentification) :
    Except String (Option CardIdentification) :=
  match _find_driver_card_tag_record data 0x0520 140 (some 200) with
  | none => .ok none
  | some (start, length) =>
    if length < 1 + 16 + 36 + 12 + 36 + 36 + 4 then .ok none
    else
      let p : PM (Nat × String × NameValue × Nat × Nat × Nat × NameValue ×
          NameValue × List Nat) := do
        let _ ← BR.seek start
        let issuing_nation ← BR.read_u8
        let card_number ← BR.read_fixed_str 16
        let issuing_authority ← parse_name
        let issue_raw ← BR.read_u32_be
        let validity_raw ← BR.read_u32_be
        let expiry_raw ← BR.read_u32_be
        let holder_surname ← parse_name
        let holder_first_names ← parse_name
        let birth_date_raw ← BR.read_bytes 4
        pure (issuing_nation, card_number, issuing_authority, issue_raw,
          validity_raw, expiry_raw, holder_surname, holder_first_names,
          birth_date_raw)
      match p { data := data, offset := 0 } with
      | .error e => .error e
      | .ok ((issuing_nation, card_number, issuing_authority, issue_raw,
          validity_raw, expiry_raw, holder_surname, holder_first_names,
          birth_date_raw), _) =>
        if !_looks_like_time_real issue_raw then .ok none
        else if !_looks_like_time_real validity_raw then .ok none
        else if !_looks_like_time_real expiry_raw then .ok none
        else if !(issue_raw ≤ validity_raw && validity_raw ≤ expiry_raw) then .ok none
        else
          let birth_date_bcd := _decode_birth_date birth_date_raw
          match _bcd_date_to_iso birth_date_bcd with
          | none => .ok none
          | some birth_date_iso =>
            let card_type := match card_app with
              | some app => app.card_type
              | none => 1
            let card_generation := match card_app with
              | some app => (match app.card_generation with
                | some g => if g = 0 then 0 else g
                | none => 0)
              | none => 0
            if !_looks_like_card_number card_number then .ok none
            else
              .ok (some
                { card_number :=
                    { card_type := card_type, issuing_nation := issuing_nation,
                      card_number := card_number, card_generation := card_generation }
                  issuing_authority := issuing_authority
                  issue_date_raw := issue_raw
                  issue_date_iso := time_real_to_iso_val issue_raw
                  validity_begin_raw := validity_raw
                  validity_begin_iso := time_real_to_iso_val validity_raw
                  expiry_date_raw := expiry_raw
                  expiry_date_iso := time_real_to_iso_val expiry_raw
                  holder_surname := holder_surname
                  holder_first_names := holder_first_names
                  birth_date_bcd := birth_date_bcd
                  birth_date_iso := some birth_date_iso })

def _looks_like_driver_card_record (chunk : List Nat) : Bool :=
  if chunk.isEmpty then false
  else
    let event_type := chunk.headD 0
    if !([0, 6, 8, 12, 33].contains event_type) && 0x40 < event_type then false
    else ((chunk.drop 11).take 13).all (fun b =>
      b = 0 || b = 0x20 || (32 ≤ b && b < 127))

/-- One step of the run tracker inside the block finders.  State:
`(run_start, run_len, max_len, max_start)`. -/
def blockScanStep (pred : Nat → Bool)
    (st : Option Nat × Nat × Nat × Option Nat) (offset : Nat) :
    Option Nat × Nat × Nat × Option Nat :=
  let (run_start, run_len, max_len, max_start) := st
  if !pred offset then
    if max_len < run_len then (none, 0, run_len, run_start)
    else (none, 0, max_len, max_start)
  else match run_start with
    | none => (some offset, 1, max_len, max_start)
    | some s => (some s, run_len + 1, max_len, max_start)

/-- The per-alignment maximal run of offsets satisfying `pred`. -/
def bestRunForAlignment (data : List Nat) (record_len alignment : Nat)
    (pred : Nat → Bool) : Nat × Option Nat :=
  let offsets := pyRange alignment (data.length + 1 - record_len) record_len
  let st := offsets.foldl (blockScanStep pred) (none, 0, 0, none)
  let (run_start, run_len, max_len, max_start) := st
  if max_len < run_len then (run_len, run_start) else (max_len, max_start)

/-- The alignment loop shared by `_find_driver_card_record_block` and
`_find_driver_card_condition_block`. -/
def bestBlock (data : List Nat) (record_len : Nat) (pred : Nat → Bool) :
    Option (Nat × Nat) :=
  (List.range record_len).foldl (fun best alignment =>
    let mr := bestRunForAlignment data record_len alignment pred
    match best with
    | none =>
      (match mr.2 with
       | some s => some (s, mr.1)
       | none => none)
    | some (_bs, bl) =>
      if bl < mr.1 then
        (match mr.2 with
         | some s => some (s, mr.1)
         | none => best)
      else best) none

def _find_driver_card_record_block (data : List Nat) (record_len : Nat)
    (min_run : Option Nat) : Option (Nat × Nat) :=
  match bestBlock data record_len
      (fun offset => _looks_like_driver_card_record ((data.drop offset).take record_len)) with
  | none => none
  | some (s, c) =>
    match min_run with
    | some m => if c < m then none else some (s, c)
    | none => some (s, c)

def _find_driver_card_condition_block (data : List Nat) (record_len : Nat) :
    Option (Nat × Nat) :=
  bestBlock data record_len (fun offset =>
    ([1, 2, 3, 4].contains (data.getD offset 0)) &&
    _looks_like_time_real (beNat ((data.drop (offset + 1)).take 4)))

/-- Shared record-building loop of `_parse_driver_card_events` /
`_parse_driver_card_faults`. -/
def cardEventRecordsFromBlock (data : List Nat) (start count record_len : Nat) :
    Except String (List CardEventRecord) :=
  (List.range count).foldlM (fun acc idx => do
    let offset := start + idx * record_len
    let chunk := (data.drop offset).take record_len
    let event_type := chunk.headD 0
    if event_type = 0 then pure acc
    else do
      let begin_raw := beNat ((chunk.drop 1).take 4)
      let end_raw := beNat ((chunk.drop 5).take 4)
      let registration_nation := chunk.getD 9 0
      let registration_number ←
        runParser parse_vehicle_registration_number ((chunk.drop 10).take 14)
      pure (acc ++ [{
        event_type := event_type
        begin_time_raw := if _looks_like_time_real begin_raw then some begin_raw else none
        begin_time_iso := time_real_to_iso_val begin_raw
        end_time_raw := if _looks_like_time_real end_raw then some end_raw else none
        end_time_iso := time_real_to_iso_val end_raw
        registration_nation := registration_nation
        registration_number := registration_number }])) []

def _parse_driver_card_events (data : List Nat) (events_per_type : Option Nat) :
    Except String (List CardEventRecord) :=
  if data.isEmpty || events_per_type = none || events_per_type = some 0 then .ok []
  else
    match _find_driver_card_record_block data 24 none with
    | none => .ok []
    | some (start, count) => cardEventRecordsFromBlock data start count 24

def _parse_driver_card_faults (data : List Nat) (faults_per_type : Option Nat) :
    Except String (List CardEventRecord) :=
  if data.isEmpty || faults_per_type = none || faults_per_type = some 0 then .ok []
  else
    match _find_driver_card_record_block data 24 faults_per_type with
    | none => .ok []
    | some (start, count) => cardEventRecordsFromBlock data start count 24

def _parse_driver_card_vehicles_used (data : Option (List Nat))
    (vehicle_records : Option Nat) : Except String (List CardVehicleRecord) :=
  match data with
  | none => .ok []
  | some data =>
    if data.isEmpty || data.length < 33 then .ok []
    else
      let payload_len := data.length - 2
      let record_len : Option Nat :=
        if payload_len % 48 = 0 then some 48
        else if payload_len % 31 = 0 then some 31
        else if 48 ≤ payload_len then some 48
        else if 31 ≤ payload_len then some 31
        else none
      match record_len with
      | none => .ok []
      | some record_len =>
        let has_vin := record_len = 48
        let base_count := payload_len / record_len
        let record_count := match vehicle_records with
          | some v => if v = 0 then base_count else min base_count v
          | none => base_count
        (List.range record_count).foldlM (fun acc idx => do
          let offset := 2 + idx * record_len
          let record := (data.drop offset).take record_len
          if record.length < record_len then pure acc
          else do
            let odo_begin := beNat (record.take 3)
            let odo_end := beNat ((record.drop 3).take 3)
            let first_use := beNat ((record.drop 6).take 4)
            let last_use := beNat ((record.drop 10).take 4)
            let registration_nation := record.getD 14 0
            let registration_number ←
              runParser parse_vehicle_registration_number ((record.drop 15).take 14)
            let vin :=
              if has_vin && 48 ≤ record.length then
                pyStrip (decodeLatin1 ((record.drop 31).take 17))
              else ""
            pure (acc ++ [{
              first_use_raw := if _looks_like_time_real first_use then some first_use else none
              first_use_iso := time_real_to_iso_val first_use
              last_use_raw := if _looks_like_time_real last_use then some last_use else none
              last_use_iso := time_real_to_iso_val last_use
              odometer_begin := some odo_begin
              odometer_end := some odo_end
              registration_nation := registration_nation
              registration_number := registration_number
              vin := vin }])) []

def _parse_driver_card_places (entry : Option CardEntry)
    (place_records : Option Nat) : List CardPlaceRecord :=
  match entry with
  | none => []
  | some entry =>
    let data := entry.data
    if data.isEmpty then []
    else
      let header_len := if entry.appendix = 2 then 2 else 1
      if data.length ≤ header_len then []
      else
        let candidate : Option Nat := match place_records with
          | some p =>
            if p ≠ 0 && (data.length - header_len) % p = 0 then
              some ((data.length - header_len) / p)
            else none
          | none => none
        let record_len := match candidate with
          | some c => if c = 10 || c = 21 then c else (if entry.appendix = 2 then 21 else 10)
          | none => if entry.appendix = 2 then 21 else 10
        let base_count := (data.length - header_len) / record_len
        let record_count := match place_records with
          | some p => if p = 0 then base_count else min base_count p
          | none => base_count
        (List.range record_count).foldl (fun acc idx =>
          let offset := header_len + idx * record_len
          let record := (data.drop offset).take record_len
          if record.length < record_len then acc
          else if record.all (fun b => b = 0) then acc
          else
            let time_raw := beNat (record.take 4)
            let entry_type := record.getD 4 0
            let country := record.getD 5 0
            let region := record.getD 6 0
            let odometer := beNat ((record.drop 7).take 3)
            let gps_time_raw : Option Nat :=
              if 21 ≤ record_len then some (beNat ((record.drop 10).take 4)) else none
            let accuracy : Option Nat :=
              if 21 ≤ record_len then some (record.getD 14 0) else none
            let latitude_raw : Option Int :=
              if 21 ≤ record_len then some (_decode_signed_24 (beNat ((record.drop 15).take 3)))
              else none
            let longitude_raw : Option Int :=
              if 21 ≤ record_len then some (_decode_signed_24 (beNat ((record.drop 18).take 3)))
              else none
            let time_value := if _looks_like_time_real time_raw then some time_raw else none
            let gps_time_value := match gps_time_raw with
              | some g => if _looks_like_time_real g then some g else none
              | none => none
            if time_value = none && gps_time_value = none && country = 0 &&
                region = 0 && odometer = 0 && entry_type = 0 then acc
            else
              acc ++ [{
                time_raw := time_value
                time_iso := (match time_value with
                  | some t => if t ≠ 0 then time_real_to_iso_val t else none
                  | none => none)
                entry_type := entry_type
                country := country
                region := region
                odometer := if odometer = 0 then none else some odometer
                gps_time_raw := gps_time_value
                gps_time_iso := (match gps_time_value with
                  | some t => if t ≠ 0 then time_real_to_iso_val t else none
                  | none => none)
                accuracy := accuracy
                latitude_raw := latitude_raw
                longitude_raw := longitude_raw }]) []

def _parse_driver_card_specific_conditions (data : List Nat) :
    List CardSpecificCondition :=
  if data.isEmpty then []
  else
    match _find_driver_card_condition_block data 5 with
    | none => []
    | some (start, count) =>
      (List.range count).map (fun idx =>
        let offset := start + idx * 5
        let condition_type := data.getD offset 0
        let time_raw := beNat ((data.drop (offset + 1)).take 4)
        { time_raw := if _looks_like_time_real time_raw then some time_raw else none
          time_iso := time_real_to_iso_val time_raw
          condition_type := condition_type })

def _parse_driver_card_vehicle_units (data : List Nat) :
    List CardVehicleUnitRecord :=
  if data.isEmpty then []
  else
    (List.range (data.length - 10)).foldl (fun acc idx =>
      let timestamp := beNat ((data.drop idx).take 4)
      if !_looks_like_time_real timestamp then acc
      else
        let version_bytes := (data.drop (idx + 6)).take 4
        if !(version_bytes.all (fun b => 48 ≤ b && b ≤ 57)) then acc
        else
          acc ++ [{
            timestamp_raw := some timestamp
            timestamp_iso := time_real_to_iso_val timestamp
            manufacturer_code := data.getD (idx + 4) 0
            device_id := data.getD (idx + 5) 0
            software_version := decodeLatin1 version_bytes }]) []

def _parse_driver_card_vehicle_units_from_gnss (entry : Option CardEntry) :
    List CardVehicleUnitRecord :=
  match entry with
  | none => []
  | some entry =>
    let data := entry.data
    if data.length < 12 then []
    else
      let timestamp := beNat ((data.drop 2).take 4)
      if !_looks_like_time_real timestamp then []
      else
        [{ timestamp_raw := some timestamp
           timestamp_iso := time_real_to_iso_val timestamp
           manufacturer_code := data.getD 6 0
           device_id := data.getD 7 0
           software_version := pyStrip (decodeLatin1 ((data.drop 8).take 4)) }]

/-- `_parse_driver_card_summary`: `None` unless the header detected a
driver card. -/
def _parse_driver_card_summary (data : List Nat) (header : DddHeader) :
    Except String (Option DriverCardSummary) :=
  if header.detected_type ≠ "driver_card" then .ok none
  else do
    let segments := _parse_driver_card_segments data
    let seg_ident := segGet segments 0x120D
    let seg_misc := segGet segments 0x4420
    let efres := _parse_card_ef_files data
    let entries := efres.1
    let app_entry := _get_card_file_entry entries 0x0501 [2, 0]
    let card_app := _parse_card_application_identification data app_entry
    let driving_licence ← _parse_driving_licence_information data
    let card_ident ← _parse_card_identification data card_app
    let events ← _parse_driver_card_events seg_ident
      (card_app.map (fun a => a.events_per_type))
    let faults ← _parse_driver_card_faults seg_ident
      (card_app.map (fun a => a.faults_per_type))
    let vehicles_data := _get_card_file_data entries 0x0505 [2, 0]
    let vehicles_used ← _parse_driver_card_vehicles_used vehicles_data
      (card_app.map (fun a => a.vehicle_records))
    let places_entry := _get_card_file_entry entries 0x0506 [2, 0]
    let places := _parse_driver_card_places places_entry
      (card_app.map (fun a => a.place_records))
    let specific_conditions := _parse_driver_card_specific_conditions seg_misc
    let vu0 := _parse_driver_card_vehicle_units_from_gnss
      (_get_card_file_entry entries 0x0523 [2, 0])
    let vehicle_units := if vu0.isEmpty then _parse_driver_card_vehicle_units seg_misc
      else vu0
    pure (some {
      application_identification := card_app
      driving_licence := driving_licence
      card_identification := card_ident
      events := events
      faults := faults
      vehicles_used := vehicles_used
      places := places
      specific_conditions := specific_conditions
      vehicle_units := vehicle_units })

/-! ### VU identification locator and segment parsers. -/

def _looks_like_text (text : String) (min_alnum min_length : Nat) : Bool :=
  let stripped := (pyStrip text).toList
  if stripped.length < min_length then false
  else
    let printable := (stripped.filter pyIsPrintableChar).length
    -- `printable / len < 0.9` in floats equals `printable * 10 < len * 9`
    -- for all lengths that occur here (≤ 35).
    if printable * 10 < stripped.length * 9 then false
    else if (stripped.filter pyIsAlnumChar).length < min_alnum then false
    else pyIsAlnumChar (stripped.headD ' ')

def _looks_like_identification (manufacturer_name manufacturer_address
    part_number approval_number : String) : Bool :=
  _looks_like_text manufacturer_name 6 4 &&
  _looks_like_text manufacturer_address 8 4 &&
  _looks_like_text part_number 4 4 &&
  _looks_like_text approval_number 2 2

def _iter_trep_offsets (data : List Nat) : List (Nat × Nat) :=
  (List.range (data.length - 1)).filterMap (fun index =>
    if data.getD index 0 = TRANSFER_DATA_POSITIVE_RESPONSE_SID then
      let trep := data.getD (index + 1) 0
      if isValidTrep trep then some (index, trep) else none
    else none)

def _slice_segment (data : List Nat) (offsets : List (Nat × Nat)) (index : Nat) :
    List Nat :=
  let start := ((offsets.get? index).map (fun p => p.1)).getD 0
  let e := match offsets.get? (index + 1) with
    | some p => p.1
    | none => data.length
  (data.drop start).take (e - start)

/-- One identification probe: seek and decode; `except ValueError: continue`
becomes `none`. -/
def tryIdentAt (data : List Nat) (off : Nat) : Option VuIdentFields :=
  match (do
      let _ ← BR.seek off
      parse_vu_identification : PM VuIdentFields) { data := data, offset := 0 } with
  | .error _ => none
  | .ok (f, _) => some f

def identTryPrefixes (data : List Nat) (index trep : Nat) :
    List Nat → Option VuIdentification
  | [] => none
  | p :: rest =>
    match tryIdentAt data (index + 2 + p) with
    | none => identTryPrefixes data index trep rest
    | some f =>
      if _looks_like_identification f.manufacturer_name.text
          f.manufacturer_address.text f.part_number f.approval_number then
        some { manufacturer_name := f.manufacturer_name
               manufacturer_address := f.manufacturer_address
               part_number := f.part_number
               serial_number := f.serial_number
               software_identification := f.software_identification
               manufacturing_date_raw := f.manufacturing_date_raw
               manufacturing_date_iso := f.manufacturing_date_iso
               approval_number := f.approval_number
               source_trep := trep
               source_offset := index
               prefix_bytes := p }
      else identTryPrefixes data index trep rest

def identScanCandidates (data : List Nat) :
    List (Nat × Nat) → Option VuIdentification
  | [] => none
  | (index, trep) :: rest =>
    match identTryPrefixes data index trep (pyRange 0 13 1) with
    | some v => some v
    | none => identScanCandidates data rest

def _parse_vu_identification (data : List Nat) (header : DddHeader) :
    Option VuIdentification :=
  if header.detected_type ≠ "vehicle_unit" then none
  else
    identScanCandidates data
      ((_iter_trep_offsets data).filter (fun p => _TECH_TREPS.contains p.2))

/-- Run a sub-parser `n` times in sequence (the
`for _ in range(record_count)` loops). -/
def parseN (p : PM α) : Nat → PM (List α)
  | 0 => pure []
  | k + 1 => do
    let x ← p
    let xs ← parseN p k
    pure (x :: xs)

structure OvAcc where
  vin : Option String := none
  registration : Option VehicleRegistrationNumber := none
  current_time_raw : Option Nat := none
  download_begin_raw : Option Nat := none
  download_end_raw : Option Nat := none
  card_slots_status : Option Nat := none
  last_download : Option VuDownloadActivityData := none
  company_locks : List VuCompanyLock := []
  control_activities : List VuControlActivity := []
deriving Repr, DecidableEq

/-- Gen2 record loop of `_parse_overview_gen2`; consumes at least 5 bytes an
iteration. -/
def overviewLoop (fuel : Nat) (r : ByteReader) (acc : OvAcc) :
    Except String OvAcc :=
  match fuel with
  | 0 => .ok acc
  | fuel + 1 =>
    if r.remaining < 5 then .ok acc
    else
      let record_type := r.data.getD r.offset 0
      let record_size := beNat ((r.data.drop (r.offset + 1)).take 2)
      let record_count := beNat ((r.data.drop (r.offset + 3)).take 2)
      let r5 : ByteReader := { r with offset := r.offset + 5 }
      let total := record_size * record_count
      if r5.remaining < total then .ok acc
      else
        let record_data := (r5.data.drop r5.offset).take total
        let r' : ByteReader := { r5 with offset := r5.offset + total }
        if record_count = 0 then overviewLoop fuel r' acc
        else
          let step : Except String OvAcc :=
            if record_type = 0x0A then
              .ok { acc with vin := some (pyStrip (decodeLatin1 (record_data.take record_size))) }
            else if record_type = 0x0B then
              match runParser parse_vehicle_registration_number (record_data.take record_size) with
              | .error e => .error e
              | .ok reg => .ok { acc with registration := some reg }
            else if record_type = 0x03 then
              .ok { acc with current_time_raw := some (beNat (record_data.take 4)) }
            else if record_type = 0x13 then
              .ok { acc with
                download_begin_raw := some (beNat (record_data.take 4))
                download_end_raw := some (beNat ((record_data.drop 4).take 4)) }
            else if record_type = 0x02 then
              match record_data.head? with
              | none => .error "index out of range"
              | some b => .ok { acc with card_slots_status := some b }
            else if record_type = 0x14 then
              match runParser parse_vu_download_activity_data (record_data.take record_size) with
              | .error e => .error e
              | .ok ld => .ok { acc with last_download := some ld }
            else if record_type = 0x10 then
              match runParser (parseN parse_vu_company_lock record_count) record_data with
              | .error e => .error e
              | .ok locks => .ok { acc with company_locks := acc.company_locks ++ locks }
            else if record_type = 0x11 then
              match runParser (parseN parse_vu_control_activity record_count) record_data with
              | .error e => .error e
              | .ok cas => .ok { acc with control_activities := acc.control_activities ++ cas }
            else .ok acc
          match step with
          | .error e => .error e
          | .ok acc' => overviewLoop fuel r' acc'

def _parse_overview_gen2 (segment : List Nat) : Except String VuOverview :=
  if segment.length < 2 then .error "Not enough bytes to read."
  else
    match overviewLoop (segment.length + 1) { data := segment, offset := 2 } {} with
    | .error e => .error e
    | .ok acc =>
      .ok { vin := acc.vin
            registration_number := acc.registration
            current_time_raw := acc.current_time_raw
            current_time_iso := time_real_to_iso acc.current_time_raw
            download_period_begin_raw := acc.download_begin_raw
            download_period_begin_iso := time_real_to_iso acc.download_begin_raw
            download_period_end_raw := acc.download_end_raw
            download_period_end_iso := time_real_to_iso acc.download_end_raw
            card_slots_status := acc.card_slots_status
            last_download := acc.last_download
            company_locks := acc.company_locks
            control_activities := acc.control_activities }

/-- The offset scan of `_parse_overview`: only a TREP `0x21` segment is
decoded (the `0x01` / `0x31` branches of the source are TODO stubs that
fall through). -/
def overviewScanList (data : List Nat) (offsets : List (Nat × Nat)) :
    List (Nat × Nat × Nat) → Except String (Option VuOverview)
  | [] => .ok none
  | (idx, _off, trep) :: rest =>
    if trep = 0x21 then
      match _parse_overview_gen2 (_slice_segment data offsets idx) with
      | .error e => .error e
      | .ok ov => .ok (some ov)
    else overviewScanList data offsets rest

def _parse_overview (data : List Nat) (header : DddHeader) :
    Except String (Option VuOverview) :=
  if header.detected_type ≠ "vehicle_unit" then .ok none
  else
    let offsets := _iter_trep_offsets data
    overviewScanList data offsets offsets.enum

structure ActAcc where
  date_raw : Option Nat := none
  odometer_midnight : Option Nat := none
  changes : List ActivityChangeInfo := []
  card_iw_records : List VuCardIWRecord := []
deriving Repr, DecidableEq

/-- The card-IW sub-loop (`record_type == 0x0D`): stops at a short chunk;
a decode error propagates (the source has no `try` here). -/
def iwLoop (record_data : List Nat) (record_size : Nat) :
    Nat → Nat → List VuCardIWRecord → Except String (List VuCardIWRecord)
  | 0, _, acc => .ok acc
  | k + 1, offset, acc =>
    let chunk := (record_data.drop offset).take record_size
    if chunk.length < record_size then .ok acc
    else
      match parse_vu_card_iw_record chunk with
      | .error e => .error e
      | .ok rec => iwLoop record_data record_size k (offset + record_size) (acc ++ [rec])

def activityLoop (fuel : Nat) (r : ByteReader) (acc : ActAcc) :
    Except String ActAcc :=
  match fuel with
  | 0 => .ok acc
  | fuel + 1 =>
    if r.remaining < 5 then .ok acc
    else
      let record_type := r.data.getD r.offset 0
      let record_size := beNat ((r.data.drop (r.offset + 1)).take 2)
      let record_count := beNat ((r.data.drop (r.offset + 3)).take 2)
      let r5 : ByteReader := { r with offset := r.offset + 5 }
      let total := record_size * record_count
      if r5.remaining < total then .ok acc
      else
        let record_data := (r5.data.drop r5.offset).take total
        let r' : ByteReader := { r5 with offset := r5.offset + total }
        if record_count = 0 then activityLoop fuel r' acc
        else
          let step : Except String ActAcc :=
            if record_type = 0x06 then
              .ok { acc with date_raw := some (beNat (record_data.take 4)) }
            else if record_type = 0x05 then
              if 3 ≤ record_size then
                .ok { acc with odometer_midnight := some (beNat (record_data.take 3)) }
              else .ok acc
            else if record_type = 0x01 then
              .ok { acc with changes := parse_activity_change_infos record_data }
            else if record_type = 0x0D then
              match iwLoop record_data record_size record_count 0 [] with
              | .error e => .error e
              | .ok recs => .ok { acc with card_iw_records := acc.card_iw_records ++ recs }
            else .ok acc
          match step with
          | .error e => .error e
          | .ok acc' => activityLoop fuel r' acc'

def _parse_activity_segment (segment : List Nat) :
    Except String (Option ActivityDay) :=
  if segment.length < 2 then .error "Not enough bytes to read."
  else
    match activityLoop (segment.length + 1) { data := segment, offset := 2 } {} with
    | .error e => .error e
    | .ok acc =>
      match acc.date_raw with
      | none => .ok none
      | some d =>
        if acc.changes.isEmpty then .ok none
        else
          .ok (some { date_raw := d
                      date_iso := time_real_to_iso (some d)
                      odometer_midnight := acc.odometer_midnight
                      changes := acc.changes
                      segments := build_activity_segments d acc.changes
                      card_iw_records := acc.card_iw_records })

def _parse_activities (data : List Nat) (header : DddHeader) :
    Except String (List ActivityDay) :=
  if header.detected_type ≠ "vehicle_unit" then .ok []
  else
    let offsets := _iter_trep_offsets data
    offsets.enum.foldlM (fun acc p =>
      if p.2.2 ≠ 0x22 then pure acc
      else do
        match ← (_parse_activity_segment (_slice_segment data offsets p.1) :
            Except String (Option ActivityDay)) with
        | some day => pure (acc ++ [day])
        | none => pure acc) []

structure EFAcc where
  events : List EventRecord := []
  faults : List FaultRecord := []
  overspeed_control : Option VuOverSpeedingControlData := none
  overspeed_events : List OverspeedingEventRecord := []
deriving Repr, DecidableEq

/-- Slice `record_data` into `count` chunks of `size` bytes, stopping at a
short chunk (the `if len(chunk) < record_size: break` pattern). -/
def recordChunks (record_data : List Nat) (size : Nat) :
    Nat → Nat → List (List Nat)
  | 0, _ => []
  | k + 1, offset =>
    let chunk := (record_data.drop offset).take size
    if chunk.length < size then []
    else chunk :: recordChunks record_data size k (offset + size)

/-- Gen2 record loop of `_parse_events_faults` for one segment.  Every
record decode is wrapped in `try/except ValueError: pass`, so this loop is
total. -/
def efLoop (fuel : Nat) (r : ByteReader) (acc : EFAcc) : EFAcc :=
  match fuel with
  | 0 => acc
  | fuel + 1 =>
    if r.remaining < 5 then acc
    else
      let record_type := r.data.getD r.offset 0
      let record_size := beNat ((r.data.drop (r.offset + 1)).take 2)
      let record_count := beNat ((r.data.drop (r.offset + 3)).take 2)
      let r5 : ByteReader := { r with offset := r.offset + 5 }
      let total := record_size * record_count
      if r5.remaining < total then acc
      else
        let record_data := (r5.data.drop r5.offset).take total
        let r' : ByteReader := { r5 with offset := r5.offset + total }
        if record_count = 0 then efLoop fuel r' acc
        else
          let chunks := recordChunks record_data record_size record_count 0
          let acc' :=
            if record_type = 0x15 then
              { acc with events := acc.events ++
                  chunks.filterMap (fun c => (parse_event_record c).toOption) }
            else if record_type = 0x18 then
              { acc with faults := acc.faults ++
                  chunks.filterMap (fun c => (parse_fault_record c).toOption) }
            else if record_type = 0x1A then
              { acc with overspeed_control :=
                  match (chunks.filterMap (fun c => (parse_overspeed_control_data c).toOption)).getLast? with
                  | some ctl => some ctl
                  | none => acc.overspeed_control }
            else if record_type = 0x1B then
              { acc with overspeed_events := acc.overspeed_events ++
                  chunks.filterMap (fun c => (parse_overspeed_event_record c).toOption) }
            else acc
          efLoop fuel r' acc'

def _parse_events_faults (data : List Nat) (header : DddHeader) :
    Except String (List EventRecord × List FaultRecord ×
      Option VuOverSpeedingControlData × List OverspeedingEventRecord) :=
  if header.detected_type ≠ "vehicle_unit" then .ok ([], [], none, [])
  else
    let offsets := _iter_trep_offsets data
    let res := offsets.enum.foldlM (fun (acc : EFAcc) p =>
      (if !([0x03, 0x23, 0x33].contains p.2.2) then Except.ok acc
      else
        let segment := _slice_segment data offsets p.1
        if segment.length < 2 then Except.error "Not enough bytes to read."
        else Except.ok (efLoop (segment.length + 1) { data := segment, offset := 2 } acc) :
        Except String EFAcc))
      ({} : EFAcc)
    match res with
    | .error e => .error e
    | .ok acc => .ok (acc.events, acc.faults, acc.overspeed_control, acc.overspeed_events)

/-- `parse_summary` on the file's bytes (the Python function additionally
does the file I/O, which is outside this model). -/
def parse_summary (data : List Nat) : Except String DddSummary := do
  let header ← _parse_header_bytes (data.take HEADER_READ_LEN) data.length
  let parts ← _validate_parts data header
  let driver_card ← _parse_driver_card_summary data header
  let vu_identification := _parse_vu_identification data header
  let overview ← _parse_overview data header
  let activity_days ← _parse_activities data header
  let ef ← _parse_events_faults data header
  pure { header := header
         parts := parts
         vu_identification := vu_identification
         overview := overview
         activity_days := activity_days
         events := ef.1
         faults := ef.2.1
         overspeed_control := ef.2.2.1
         overspeed_events := ef.2.2.2
         driver_card := driver_card }


/-! ### Spec-side statement of the certificate-chain claim (C2).

These two definitions follow the words of the claim, to be compared
against `_verify_driver_card_certificates`, which is translated from the
source. -/

/-- The claim's three ISO 9796-2 conditions for one certificate under one
key: with `message := (data[0:128] as a big-endian integer)^E mod N`
rendered as 128 bytes, `message[0] = 0x6A`, `message[127] = 0xBC`, and
`SHA1(message[1:107] ++ data[128:186]) = message[107:127]`.  `mod N` is
genuine modular reduction, so the modulus is positive. -/
def IsoEnvelopeOk (key_n key_e data : List Nat) : Prop :=
  0 < beNat key_n ∧
  (natToBytesBE 128 (beNat (data.take 128) ^ beNat key_e % beNat key_n)).getD 0 0 = 0x6A ∧
  (natToBytesBE 128 (beNat (data.take 128) ^ beNat key_e % beNat key_n)).getD 127 0 = 0xBC ∧
  sha1 (((natToBytesBE 128 (beNat (data.take 128) ^ beNat key_e % beNat key_n)).drop 1).take 106 ++
      (data.drop 128).take 58) =
    ((natToBytesBE 128 (beNat (data.take 128) ^ beNat key_e % beNat key_n)).drop 107).take 20

/-- The claim's chain condition: the CA certificate passes under the pinned
EU root key, and the card certificate passes under the member-state key
taken from bytes `[28:156]` (modulus) and `[156:164]` (exponent) of the
recovered content `message[1:107] ++ ca_data[128:186]`. -/
def CertChainSpecOk (ca_data card_data : List Nat) : Prop :=
  IsoEnvelopeOk _EU_RSA_N _EU_RSA_E ca_data ∧
  IsoEnvelopeOk
    (((((natToBytesBE 128 (beNat (ca_data.take 128) ^ beNat _EU_RSA_E % beNat _EU_RSA_N)).drop 1).take 106 ++
        (ca_data.drop 128).take 58).drop 28).take 128)
    (((((natToBytesBE 128 (beNat (ca_data.take 128) ^ beNat _EU_RSA_E % beNat _EU_RSA_N)).drop 1).take 106 ++
        (ca_data.drop 128).take 58).drop 156).take 8)
    card_data

/-! ### Spec-side statement of the card-entry validation claim (C9).

These definitions follow the words of the claim, to be compared against
`_validate_card_entries`, which is translated from the source. -/

/-- The claim's "neither data nor signature entries exist" for one scheme
with data appendix `da` and signature appendix `sa`. -/
def SchemeEntriesExist (entries : List CardEntry) (da sa : Nat) : Prop :=
  ∃ e ∈ entries, e.appendix = da ∨ e.appendix = sa

/-- The claim's validity of one scheme: a data entry is present, its length
satisfies the part's min-or-range constraint, and, when a signature is
required, a signature entry is present with exactly the scheme's expected
length.  "The" data/signature entry is the first one, as selected by the
walker.  `RuleSatisfied` spells the claim's `(min | range)` constraint. -/
def RuleSatisfied (rule : Option CardLengthRule) (len : Nat) : Prop :=
  match rule with
  | none => True
  | some (CardLengthRule.min n) => n ≤ len
  | some (CardLengthRule.range lo hi) => lo ≤ len ∧ len ≤ hi

def SchemeSpecValid (entries : List CardEntry) (requires_sig : Bool)
    (rule : Option CardLengthRule) (da sa sl : Nat) : Prop :=
  ∃ e, (entries.filter (fun x => x.appendix == da)).head? = some e ∧
    RuleSatisfied rule e.length ∧
    (requires_sig = true →
      ∃ g, (entries.filter (fun x => x.appendix == sa)).head? = some g ∧ g.length = sl)

/-! ## Helper lemmas. -/

theorem PM_bind (m : PM α) (f : α → PM β) (r : ByteReader) :
    (m >>= f) r = match m r with
      | .error e => .error e
      | .ok (a, r') => f a r' := rfl

theorem PM_pure (a : α) (r : ByteReader) : (pure a : PM α) r = .ok (a, r) := rfl

theorem PM_bind_ok {m : PM α} {f : α → PM β} {r r' : ByteReader} {a : α}
    (h : m r = .ok (a, r')) : (m >>= f) r = f a r' := by
  rw [PM_bind, h]

theorem read_bytes_ok {d : List Nat} {o n : Nat} (h : o + n ≤ d.length) :
    BR.read_bytes n { data := d, offset := o } =
      .ok ((d.drop o).take n, { data := d, offset := o + n }) := by
  simp [BR.read_bytes, h]

theorem read_u8_ok {d : List Nat} {o : Nat} (h : o + 1 ≤ d.length) :
    BR.read_u8 { data := d, offset := o } =
      .ok (beNat ((d.drop o).take 1), { data := d, offset := o + 1 }) :=
  PM_bind_ok (read_bytes_ok h)

theorem read_u32_be_ok {d : List Nat} {o : Nat} (h : o + 4 ≤ d.length) :
    BR.read_u32_be { data := d, offset := o } =
      .ok (beNat ((d.drop o).take 4), { data := d, offset := o + 4 }) :=
  PM_bind_ok (read_bytes_ok h)

theorem read_fixed_str_ok {d : List Nat} {o n : Nat} (h : o + n ≤ d.length) :
    BR.read_fixed_str n { data := d, offset := o } =
      .ok (pyStrip (decodeLatin1 (rstripNul ((d.drop o).take n))),
        { data := d, offset := o + n }) :=
  PM_bind_ok (read_bytes_ok h)

theorem getReader_ok (r : ByteReader) : getReader r = .ok (r, r) := rfl

theorem beNat_take_one_getD (d : List Nat) (o : Nat) :
    beNat ((d.drop o).take 1) = d.getD o 0 := by
  induction d generalizing o with
  | nil => simp [beNat]
  | cons x xs ih =>
    cases o with
    | zero => simp [beNat]
    | succ k => simpa using ih k

/-! ## Claim C1 -/

/-- C1 (counterexample): for the empty input `parse_summary` does not
return a `Summary` at all — the claim's promised `Summary` carrying
`invalidReason = "Header (empty)"` is never produced. -/
theorem parse_summary_empty_no_summary : (parse_summary []).toOption = none := rfl

/-- C1 (amended): on the empty input `parse_summary` raises
`ValueError("File is empty.")` instead of returning a `Summary`; the header
validator's own empty-header branch — which would report
`"Header (empty)"` exactly as the claim states — is unreachable behind that
raise. -/
theorem parse_summary_empty_raises :
    parse_summary [] = Except.error "File is empty." ∧
    _validate_header [] none none none "unknown" =
      (false, some "Header (empty)") :=
  ⟨rfl, rfl⟩

/-! ## Claim C4 -/

/-- C4 (counterexample): decoding `0x9BFE` does not give the claimed
fields — its low 11 bits are 1022, not 510. -/
theorem decode_0x9BFE_not_510 :
    decode_activity_change_info 0x9BFE ≠
      { slot := 1, driving_status := 0, card_status := 0, activity := 3,
        minutes := 510 } ∧
    (decode_activity_change_info 0x9BFE).minutes = 1022 := by
  decide

/-- C4 (amended): the word encoding slot=1, drivingStatus=0, cardStatus=0,
activity=3, minutes=510 under the MSB-to-LSB layout
`slot:1, drivingStatus:1, cardStatus:1, activity:2, minutes:11` is
`0x99FE`, and decoding `0x99FE` yields exactly those fields. -/
theorem decode_0x99FE_roundtrip :
    1 * 2 ^ 15 + 0 * 2 ^ 14 + 0 * 2 ^ 13 + 3 * 2 ^ 11 + 510 = 0x99FE ∧
    decode_activity_change_info 0x99FE =
      { slot := 1, driving_status := 0, card_status := 0, activity := 3,
        minutes := 510 } := by
  decide

/-! ## Claim C5 -/

theorem decode_minutes_lt_2048 (w : Nat) :
    (decode_activity_change_info w).minutes < 2048 := by
  simp only [decode_activity_change_info]
  exact Nat.mod_lt _ (by norm_num)

theorem parse_aci_minutes_lt_2048 :
    ∀ (raw : List Nat) (c : ActivityChangeInfo),
      c ∈ parse_activity_change_infos raw → c.minutes < 2048
  | [], c, hc => by simp [parse_activity_change_infos] at hc
  | [_], c, hc => by simp [parse_activity_change_infos] at hc
  | b0 :: b1 :: rest, c, hc => by
    simp only [parse_activity_change_infos, List.mem_cons] at hc
    rcases hc with h | h
    · subst h; exact decode_minutes_lt_2048 _
    · exact parse_aci_minutes_lt_2048 rest c h

/-- C5 (counterexample): the word `0x05DC` (minutes bits = 1500) decodes to
minutes not below 1440, refuting the claimed invariant `minutes < 1440`. -/
theorem decode_0x05DC_minutes_not_lt_1440 :
    ¬ ((decode_activity_change_info 0x05DC).minutes < 1440) := by
  decide

/-- C5 (amended): the decoder masks the low 11 bits, so every decoded
change — in particular every change produced by
`parse_activity_change_infos` — satisfies `0 ≤ minutes < 2048` (not 1440). -/
theorem decoded_minutes_lt_2048 :
    (∀ w : Nat, (decode_activity_change_info w).minutes < 2048) ∧
    (∀ (raw : List Nat) (c : ActivityChangeInfo),
      c ∈ parse_activity_change_infos raw → c.minutes < 2048) :=
  ⟨decode_minutes_lt_2048, parse_aci_minutes_lt_2048⟩

/-- Witness for C5's amended theorem at the concrete word `0xFFFF`. -/
theorem decoded_minutes_lt_2048_witness :
    decode_activity_change_info 0xFFFF ∈ parse_activity_change_infos [0xFF, 0xFF] ∧
    (decode_activity_change_info 0xFFFF).minutes < 2048 :=
  ⟨by decide, decoded_minutes_lt_2048.2 [0xFF, 0xFF] _ (by decide)⟩

/-! ## Claim C7 -/

/-- C7: one step of the Gen2 record-array walker: it succeeds exactly when
the 5-byte triple header and `recordSize·recordCount` payload bytes are
available, in which case it returns the decoded triple
(`recordType:u8, recordSize:u16BE, recordCount:u16BE`) and advances the
cursor by `5 + recordSize·recordCount`; it reports a not-ok (truncated)
outcome exactly when fewer than 5 bytes remain or fewer than
`recordSize·recordCount` bytes remain after the header. -/
theorem read_gen2_record_spec (r : ByteReader) :
    ((_read_gen2_record r).1.2.2.2 = true ↔
      5 ≤ r.remaining ∧
      beNat ((r.data.drop (r.offset + 1)).take 2) *
        beNat ((r.data.drop (r.offset + 3)).take 2) ≤ r.remaining - 5) ∧
    ((_read_gen2_record r).1.2.2.2 = true →
      (_read_gen2_record r).1 =
        (r.data.getD r.offset 0,
         beNat ((r.data.drop (r.offset + 1)).take 2),
         beNat ((r.data.drop (r.offset + 3)).take 2), true) ∧
      (_read_gen2_record r).2.offset =
        r.offset + 5 + beNat ((r.data.drop (r.offset + 1)).take 2) *
          beNat ((r.data.drop (r.offset + 3)).take 2)) ∧
    ((_read_gen2_record r).1.2.2.2 = false ↔
      r.remaining < 5 ∨
      r.remaining - 5 < beNat ((r.data.drop (r.offset + 1)).take 2) *
        beNat ((r.data.drop (r.offset + 3)).take 2)) := by
  have hrem : ({ r with offset := r.offset + 5 } : ByteReader).remaining =
      r.remaining - 5 := by
    simp only [ByteReader.remaining]
    omega
  unfold _read_gen2_record
  by_cases h5 : r.remaining < 5
  · simp only [h5, if_true]
    refine ⟨by (simp; omega), by simp, by simp⟩
  · simp only [h5, if_false]
    rw [hrem]
    by_cases htot : r.remaining - 5 <
        beNat ((r.data.drop (r.offset + 1)).take 2) *
          beNat ((r.data.drop (r.offset + 3)).take 2)
    · simp only [htot, if_true]
      refine ⟨by (simp; omega), by simp, by simp⟩
    · simp only [htot, if_false]
      refine ⟨by (simp; omega), ?_, by simp⟩
      intro _
      exact ⟨by simp [beNat_take_one_getD], by simp⟩

/-- Witness for C7 at a concrete cursor: a triple header
`(0x01, size 2, count 3)` followed by exactly 6 payload bytes. -/
theorem read_gen2_record_spec_witness :
    ((_read_gen2_record { data := [1, 0, 2, 0, 3, 9, 9, 9, 9, 9, 9], offset := 0 }).1.2.2.2 = true ↔
      5 ≤ ({ data := [1, 0, 2, 0, 3, 9, 9, 9, 9, 9, 9], offset := 0 } : ByteReader).remaining ∧
      beNat ((([1, 0, 2, 0, 3, 9, 9, 9, 9, 9, 9] : List Nat).drop (0 + 1)).take 2) *
        beNat ((([1, 0, 2, 0, 3, 9, 9, 9, 9, 9, 9] : List Nat).drop (0 + 3)).take 2) ≤
        ({ data := [1, 0, 2, 0, 3, 9, 9, 9, 9, 9, 9], offset := 0 } : ByteReader).remaining - 5) :=
  (read_gen2_record_spec { data := [1, 0, 2, 0, 3, 9, 9, 9, 9, 9, 9], offset := 0 }).1

/-! ## Claim C6 -/

theorem skip_ok {d : List Nat} {o n : Nat} (h : o + n ≤ d.length) :
    BR.skip n { data := d, offset := o } =
      .ok ((), { data := d, offset := o + n }) := by
  simp [BR.skip, BR.seek, h]

theorem PM_map_ok {m : PM α} {f : α → β} {r r' : ByteReader} {a : α}
    (h : m r = .ok (a, r')) : (f <$> m) r = .ok (f a, r') :=
  PM_bind_ok (f := fun a => pure (f a)) h

theorem parse_fcn_gen2_consumes {d : List Nat} {o : Nat} (h : o + 19 ≤ d.length) :
    ∃ v, parse_full_card_number_gen2 { data := d, offset := o } =
      .ok (v, { data := d, offset := o + 19 }) := by
  have e : parse_full_card_number_gen2 { data := d, offset := o } =
      .ok ({ card_type := beNat ((d.drop o).take 1),
             issuing_nation := beNat ((d.drop (o + 1)).take 1),
             card_number := pyStrip (decodeLatin1 (rstripNul ((d.drop (o + 1 + 1)).take 16))),
             card_generation := beNat ((d.drop (o + 1 + 1 + 16)).take 1) },
           { data := d, offset := o + 1 + 1 + 16 + 1 }) := by
    unfold parse_full_card_number_gen2
    rw [PM_bind_ok (read_u8_ok (show o + 1 ≤ d.length by omega))]
    rw [PM_bind_ok (read_u8_ok (show o + 1 + 1 ≤ d.length by omega))]
    rw [PM_bind_ok (read_fixed_str_ok (show o + 1 + 1 + 16 ≤ d.length by omega))]
    rw [PM_bind_ok (read_u8_ok (show o + 1 + 1 + 16 + 1 ≤ d.length by omega))]
    rw [PM_pure]
  rw [show o + 1 + 1 + 16 + 1 = o + 19 by omega] at e
  exact ⟨_, e⟩

theorem normalize_time_real_fst (X : Nat) :
    (normalize_time_real X).1 = if X = 0 ∨ 0xFFFFFFFF ≤ X then none else some X := by
  simp only [normalize_time_real, is_time_real_max]
  by_cases h1 : X = 0 <;> by_cases h2 : 4294967295 ≤ X <;> simp [h1, h2]

/-- C6 (amended): in `parse_event_record` the begin/end time fields are
absent exactly when the raw 32-bit big-endian value is 0 or at least
`0xFFFFFFFF`, and hold the raw value otherwise (no `[946684800, 1893456000]`
plausibility window is applied). -/
theorem parse_event_record_time_fields (data : List Nat) (h : 86 ≤ data.length) :
    (parse_event_record data).map (fun r => (r.begin_time_raw, r.end_time_raw)) =
      Except.ok
        ((if beNat ((data.drop 2).take 4) = 0 ∨
            0xFFFFFFFF ≤ beNat ((data.drop 2).take 4) then none
          else some (beNat ((data.drop 2).take 4))),
         (if beNat ((data.drop 6).take 4) = 0 ∨
            0xFFFFFFFF ≤ beNat ((data.drop 6).take 4) then none
          else some (beNat ((data.drop 6).take 4)))) := by
  obtain ⟨fc1, hfc1⟩ := parse_fcn_gen2_consumes
    (show 0 + 1 + 1 + 4 + 4 + 19 ≤ data.length by omega)
  obtain ⟨fc2, hfc2⟩ := parse_fcn_gen2_consumes
    (show 0 + 1 + 1 + 4 + 4 + 19 + 19 ≤ data.length by omega)
  obtain ⟨fc3, hfc3⟩ := parse_fcn_gen2_consumes
    (show 0 + 1 + 1 + 4 + 4 + 19 + 19 + 19 ≤ data.length by omega)
  obtain ⟨fc4, hfc4⟩ := parse_fcn_gen2_consumes
    (show 0 + 1 + 1 + 4 + 4 + 19 + 19 + 19 + 19 ≤ data.length by omega)
  unfold parse_event_record runParser
  rw [PM_bind_ok (read_u8_ok (show 0 + 1 ≤ data.length by omega))]
  rw [PM_bind_ok (read_u8_ok (show 0 + 1 + 1 ≤ data.length by omega))]
  rw [PM_bind_ok (read_u32_be_ok (show 0 + 1 + 1 + 4 ≤ data.length by omega))]
  rw [PM_bind_ok (read_u32_be_ok (show 0 + 1 + 1 + 4 + 4 ≤ data.length by omega))]
  rw [PM_bind_ok hfc1]
  rw [PM_bind_ok hfc2]
  rw [PM_bind_ok hfc3]
  rw [PM_bind_ok hfc4]
  rw [PM_bind_ok (getReader_ok _)]
  beta_reduce
  by_cases hrem : 1 ≤ ({ data := data, offset := 67 + 19 } : ByteReader).remaining
  · rw [if_pos hrem]
    have h87 : 67 + 19 + 1 ≤ data.length := by
      simp only [ByteReader.remaining] at hrem
      omega
    rw [PM_bind_ok (PM_map_ok (read_u8_ok h87))]
    rw [PM_bind_ok (getReader_ok _)]
    beta_reduce
    by_cases hrem2 : 0 < ({ data := data, offset := 67 + 19 + 1 } : ByteReader).remaining
    · rw [if_pos hrem2]
      have hskip : 67 + 19 + 1 +
          ({ data := data, offset := 67 + 19 + 1 } : ByteReader).remaining ≤
          data.length := by
        simp only [ByteReader.remaining]
        omega
      rw [PM_bind_ok (skip_ok hskip)]
      simp [normalize_time_real_fst, Except.map]
    · rw [if_neg hrem2]
      rw [PM_bind_ok (PM_pure () _)]
      simp [normalize_time_real_fst, Except.map]
  · rw [if_neg hrem]
    rw [PM_bind_ok (PM_pure none _)]
    rw [PM_bind_ok (getReader_ok _)]
    beta_reduce
    by_cases hrem2 : 0 < ({ data := data, offset := 67 + 19 } : ByteReader).remaining
    · exact absurd hrem2 (by simpa using hrem)
    · rw [if_neg hrem2]
      rw [PM_bind_ok (PM_pure () _)]
      simp [normalize_time_real_fst, Except.map]

/-- C6 (counterexample): an event record whose begin-time bytes encode the
raw value 1 — far outside `[946684800, 1893456000]` — still gets
`begin_time_raw = some 1`, where the claim requires the field to be
absent. -/
theorem parse_event_record_keeps_implausible_time :
    (parse_event_record ([0, 0, 0, 0, 0, 1] ++ List.replicate 80 0)).map
      (fun r => r.begin_time_raw) = Except.ok (some 1) ∧
    ¬ (946684800 ≤ 1 ∧ (1 : Nat) ≤ 1893456000) := by
  constructor
  · rfl
  · decide

/-- Witness for C6's amended theorem on a concrete 86-byte buffer. -/
theorem parse_event_record_time_fields_witness :
    86 ≤ (List.replicate 86 0 : List Nat).length ∧
    (parse_event_record (List.replicate 86 (0 : Nat))).map
      (fun r => (r.begin_time_raw, r.end_time_raw)) =
      Except.ok
        ((if beNat (((List.replicate 86 (0 : Nat)).drop 2).take 4) = 0 ∨
            0xFFFFFFFF ≤ beNat (((List.replicate 86 (0 : Nat)).drop 2).take 4) then none
          else some (beNat (((List.replicate 86 (0 : Nat)).drop 2).take 4))),
         (if beNat (((List.replicate 86 (0 : Nat)).drop 6).take 4) = 0 ∨
            0xFFFFFFFF ≤ beNat (((List.replicate 86 (0 : Nat)).drop 6).take 4) then none
          else some (beNat (((List.replicate 86 (0 : Nat)).drop 6).take 4)))) :=
  ⟨by simp, parse_event_record_time_fields (List.replicate 86 0) (by simp)⟩

/-! ## Claim C8 -/

theorem skip_exact_pos {r : ByteReader} {count : Nat} (h : r.remaining < count) :
    _skip_exact r count = (false, r) := by
  simp [_skip_exact, h]

theorem skip_exact_neg {r : ByteReader} {count : Nat} (h : ¬ r.remaining < count) :
    _skip_exact r count = (true, { r with offset := r.offset + count }) := by
  simp [_skip_exact, h]

theorem readU8At_eq (r : ByteReader) :
    readU8At r = (beNat ((r.data.drop r.offset).take 1),
      { r with offset := r.offset + 1 }) := rfl

theorem validate_gen1_overview_spec (r : ByteReader) :
    ((_validate_gen1_part r 0x01).1.1 = true ↔
      621 + 98 * r.data.getD (r.offset + 491) 0 +
        31 * r.data.getD (r.offset + 492 + 98 * r.data.getD (r.offset + 491) 0) 0 ≤
        r.remaining) ∧
    ((_validate_gen1_part r 0x01).1.1 = true →
      (_validate_gen1_part r 0x01).1.2 = some "Structure OK (signature not verified)") ∧
    ((_validate_gen1_part r 0x01).1.1 = false →
      ∃ reason, (_validate_gen1_part r 0x01).1.2 = some reason ∧
        reason ∈ ["Overview certificates truncated", "Overview header truncated",
          "Overview locks count missing", "Overview locks truncated",
          "Overview controls count missing", "Overview controls truncated",
          "Overview signature truncated"]) := by
  unfold _validate_gen1_part
  rw [if_pos rfl]
  by_cases h1 : r.remaining < 194
  · simp only [skip_exact_pos h1]
    refine ⟨?_, by simp, fun _ => ⟨"Overview certificates truncated", rfl, by simp⟩⟩
    simp only [ByteReader.remaining] at h1 ⊢
    simp
    omega
  · simp only [skip_exact_neg h1]
    by_cases h2 : ({ r with offset := r.offset + 194 } : ByteReader).remaining < 194
    · simp only [skip_exact_pos h2]
      refine ⟨?_, by simp, fun _ => ⟨"Overview certificates truncated", rfl, by simp⟩⟩
      simp only [ByteReader.remaining] at h1 h2 ⊢
      simp at h2 ⊢
      omega
    · simp only [skip_exact_neg h2]
      by_cases h3 : ({ data := r.data, offset := r.offset + 194 + 194 } : ByteReader).remaining < 103
      · simp only [skip_exact_pos h3]
        refine ⟨?_, by simp, fun _ => ⟨"Overview header truncated", rfl, by simp⟩⟩
        simp only [ByteReader.remaining] at h1 h2 h3 ⊢
        simp at h2 h3 ⊢
        omega
      · simp only [skip_exact_neg h3]
        rw [show r.offset + 194 + 194 + 103 = r.offset + 491 from by omega]
        by_cases h4 : ({ data := r.data, offset := r.offset + 491 } : ByteReader).remaining < 1
        · rw [if_pos h4]
          refine ⟨?_, by simp, fun _ => ⟨"Overview locks count missing", rfl, by simp⟩⟩
          simp only [ByteReader.remaining] at h1 h2 h3 h4 ⊢
          simp at h2 h3 h4 ⊢
          omega
        · rw [if_neg h4]
          simp only [readU8At_eq, beNat_take_one_getD]
          by_cases h5 : ({ data := r.data, offset := r.offset + 491 + 1 } : ByteReader).remaining <
              r.data.getD (r.offset + 491) 0 * 98
          · simp only [skip_exact_pos h5]
            refine ⟨?_, by simp, fun _ => ⟨"Overview locks truncated", rfl, by simp⟩⟩
            simp only [ByteReader.remaining] at h1 h2 h3 h4 h5 ⊢
            simp at h2 h3 h4 h5 ⊢
            omega
          · simp only [skip_exact_neg h5]
            rw [show r.offset + 491 + 1 + r.data.getD (r.offset + 491) 0 * 98 =
              r.offset + 492 + 98 * r.data.getD (r.offset + 491) 0 from by omega]
            by_cases h6 : ({ data := r.data, offset := r.offset + 492 + 98 * r.data.getD (r.offset + 491) 0 } : ByteReader).remaining < 1
            · rw [if_pos h6]
              refine ⟨?_, by simp, fun _ => ⟨"Overview controls count missing", rfl, by simp⟩⟩
              simp only [ByteReader.remaining] at h1 h2 h3 h4 h5 h6 ⊢
              simp at h2 h3 h4 h5 h6 ⊢
              omega
            · rw [if_neg h6]
              by_cases h7 : ({ data := r.data, offset := r.offset + 492 + 98 * r.data.getD (r.offset + 491) 0 + 1 } : ByteReader).remaining < r.data.getD (r.offset + 492 + 98 * r.data.getD (r.offset + 491) 0) 0 * 31
              · simp only [skip_exact_pos h7]
                refine ⟨?_, by simp, fun _ => ⟨"Overview controls truncated", rfl, by simp⟩⟩
                simp only [ByteReader.remaining] at h1 h2 h3 h4 h5 h6 h7 ⊢
                simp at h2 h3 h4 h5 h6 h7 ⊢
                omega
              · simp only [skip_exact_neg h7]
                by_cases h8 : ({ data := r.data, offset := r.offset + 492 + 98 * r.data.getD (r.offset + 491) 0 + 1 + r.data.getD (r.offset + 492 + 98 * r.data.getD (r.offset + 491) 0) 0 * 31 } : ByteReader).remaining < 128
                · simp only [skip_exact_pos h8]
                  refine ⟨?_, by simp, fun _ => ⟨"Overview signature truncated", rfl, by simp⟩⟩
                  simp only [ByteReader.remaining] at h1 h2 h3 h4 h5 h6 h7 h8 ⊢
                  simp at h2 h3 h4 h5 h6 h7 h8 ⊢
                  omega
                · simp only [skip_exact_neg h8]
                  refine ⟨?_, by simp, by simp⟩
                  simp only [ByteReader.remaining] at h1 h2 h3 h4 h5 h6 h7 h8 ⊢
                  simp at h2 h3 h4 h5 h6 h7 h8 ⊢
                  omega

/-- Witness for C8 at the empty cursor (no bytes: the validator rejects and
the supply condition fails). -/
theorem validate_gen1_overview_spec_witness :
    ((_validate_gen1_part { data := [], offset := 0 } 0x01).1.1 = true ↔
      621 + 98 * ([] : List Nat).getD (0 + 491) 0 +
        31 * ([] : List Nat).getD (0 + 492 + 98 * ([] : List Nat).getD (0 + 491) 0) 0 ≤
        ({ data := [], offset := 0 } : ByteReader).remaining) :=
  (validate_gen1_overview_spec { data := [], offset := 0 }).1

/-! ## Claim C3 -/

theorem segmentsOfSlot_slot (d k : Nat) :
    ∀ l : List ActivityChangeInfo, ∀ s ∈ segmentsOfSlot d k l, s.slot = k
  | [], s, hs => by simp [segmentsOfSlot] at hs
  | c :: rest, s, hs => by
    rw [segmentsOfSlot] at hs
    by_cases he : c.minutes = (match rest.head? with
      | some d => d.minutes
      | none => 1440)
    · rw [if_pos he] at hs
      exact segmentsOfSlot_slot d k rest s hs
    · rw [if_neg he] at hs
      rcases List.mem_cons.mp hs with h | h
      · subst h; rfl
      · exact segmentsOfSlot_slot d k rest s h

theorem segmentsOfSlot_spec (d k : Nat) :
    ∀ l : List ActivityChangeInfo,
      l.Pairwise (fun a b => a.minutes ≤ b.minutes) →
      (∀ c ∈ l, c.minutes < 1440) → l ≠ [] →
      segmentsOfSlot d k l ≠ [] ∧
      (∀ s ∈ segmentsOfSlot d k l, s.start_minute < s.end_minute) ∧
      List.Chain' (fun s t => s.end_minute ≤ t.start_minute) (segmentsOfSlot d k l) ∧
      ((segmentsOfSlot d k l).getLast?.map (fun s => s.end_minute) = some 1440) ∧
      (∀ t, (segmentsOfSlot d k l).head? = some t → ∃ c ∈ l, t.start_minute = c.minutes)
  | [], _, _, hne => absurd rfl hne
  | [c], _, hlt, _ => by
    have hc : c.minutes < 1440 := hlt c (List.mem_singleton_self c)
    have hne : ¬ (c.minutes = 1440) := by omega
    simp only [segmentsOfSlot, List.head?_nil, if_neg hne]
    refine ⟨by simp, by simpa using hc, by simp, by simp, ?_⟩
    intro t ht
    simp only [List.head?_cons, Option.some.injEq] at ht
    exact ⟨c, List.mem_singleton_self c, by rw [← ht]⟩
  | c :: c2 :: rest, hsort, hlt, _ => by
    have hsort' : (c2 :: rest).Pairwise (fun a b => a.minutes ≤ b.minutes) :=
      (List.pairwise_cons.mp hsort).2
    have hle : c.minutes ≤ c2.minutes :=
      (List.pairwise_cons.mp hsort).1 c2 (List.mem_cons_self c2 rest)
    have hlt' : ∀ x ∈ c2 :: rest, x.minutes < 1440 :=
      fun x hx => hlt x (List.mem_cons_of_mem c hx)
    obtain ⟨ih1, ih2, ih3, ih4, ih5⟩ :=
      segmentsOfSlot_spec d k (c2 :: rest) hsort' hlt' (by simp)
    rw [segmentsOfSlot]
    simp only [List.head?_cons]
    by_cases he : c.minutes = c2.minutes
    · rw [if_pos he]
      refine ⟨ih1, ih2, ih3, ih4, ?_⟩
      intro t ht
      obtain ⟨x, hx, hxeq⟩ := ih5 t ht
      exact ⟨x, List.mem_cons_of_mem c hx, hxeq⟩
    · rw [if_neg he]
      have hstrict : c.minutes < c2.minutes := by omega
      refine ⟨by simp, ?_, ?_, ?_, ?_⟩
      · intro s hs
        rcases List.mem_cons.mp hs with h | h
        · subst h; simpa using hstrict
        · exact ih2 s h
      · rw [List.chain'_cons']
        refine ⟨?_, ih3⟩
        intro t ht
        obtain ⟨x, hx, hxeq⟩ := ih5 t ht
        have : c2.minutes ≤ x.minutes := by
          rcases List.mem_cons.mp hx with h | h
          · subst h; exact le_refl _
          · exact (List.pairwise_cons.mp hsort').1 x h
        simp only [hxeq]
        omega
      · obtain ⟨t0, ts, hts⟩ := List.exists_cons_of_ne_nil ih1
        rw [hts] at ih4 ⊢
        rw [List.getLast?_cons_cons]
        exact ih4
      · intro t ht
        simp only [List.head?_cons, Option.some.injEq] at ht
        exact ⟨c, List.mem_cons_self c _, by rw [← ht]⟩

theorem slotChangesSorted_pairwise (slot : Nat) (changes : List ActivityChangeInfo) :
    (slotChangesSorted slot changes).Pairwise (fun a b => a.minutes ≤ b.minutes) := by
  haveI : IsTotal ActivityChangeInfo (fun a b => a.minutes ≤ b.minutes) :=
    ⟨fun a b => Nat.le_total _ _⟩
  haveI : IsTrans ActivityChangeInfo (fun a b => a.minutes ≤ b.minutes) :=
    ⟨fun _ _ _ => Nat.le_trans⟩
  exact List.sorted_insertionSort _ _

theorem slotChangesSorted_mem (slot : Nat) (changes : List ActivityChangeInfo)
    (c : ActivityChangeInfo) :
    c ∈ slotChangesSorted slot changes ↔
      c ∈ changes.filter (fun x => x.slot = slot) :=
  (List.perm_insertionSort _ _).mem_iff

/-- C3 (amended): provided every change of the slot has `minutes < 1440`,
the segments `build_activity_segments` emits for a slot with at least one
change have strictly increasing endpoints — each start is strictly below
its end and each end is at most the next start — and the final segment
ends exactly at minute 1440. -/
theorem build_activity_segments_slot_spec (date_raw : Nat)
    (changes : List ActivityChangeInfo) (slot : Nat)
    (hslot : slot = 0 ∨ slot = 1)
    (hlt : ∀ c ∈ changes, c.slot = slot → c.minutes < 1440)
    (hex : ∃ c ∈ changes, c.slot = slot) :
    ((build_activity_segments date_raw changes).filter
        (fun s => s.slot == slot)) ≠ [] ∧
    (∀ s ∈ (build_activity_segments date_raw changes).filter
        (fun s => s.slot == slot), s.start_minute < s.end_minute) ∧
    List.Chain' (fun s t => s.end_minute ≤ t.start_minute)
      ((build_activity_segments date_raw changes).filter
        (fun s => s.slot == slot)) ∧
    (((build_activity_segments date_raw changes).filter
        (fun s => s.slot == slot)).getLast?.map (fun s => s.end_minute) =
      some 1440) := by
  have hfilter : (build_activity_segments date_raw changes).filter
      (fun s => s.slot == slot) =
      segmentsOfSlot date_raw slot (slotChangesSorted slot changes) := by
    unfold build_activity_segments
    rw [List.filter_append]
    rcases hslot with h | h
    · subst h
      rw [List.filter_eq_self.mpr, List.filter_eq_nil_iff.mpr, List.append_nil]
      · intro s hs
        have := segmentsOfSlot_slot date_raw 1 _ s hs
        simp [this]
      · intro s hs
        have := segmentsOfSlot_slot date_raw 0 _ s hs
        simp [this]
    · subst h
      rw [List.filter_eq_nil_iff.mpr, List.filter_eq_self.mpr, List.nil_append]
      · intro s hs
        have := segmentsOfSlot_slot date_raw 1 _ s hs
        simp [this]
      · intro s hs
        have := segmentsOfSlot_slot date_raw 0 _ s hs
        simp [this]
  have hlt' : ∀ c ∈ slotChangesSorted slot changes, c.minutes < 1440 := by
    intro c hc
    rw [slotChangesSorted_mem] at hc
    obtain ⟨hmem, hsl⟩ := List.mem_filter.mp hc
    exact hlt c hmem (by simpa using hsl)
  have hne : slotChangesSorted slot changes ≠ [] := by
    obtain ⟨c, hc, hsl⟩ := hex
    intro hnil
    have : c ∈ changes.filter (fun x => x.slot = slot) :=
      List.mem_filter.mpr ⟨hc, by simpa using hsl⟩
    rw [← slotChangesSorted_mem] at this
    simp [hnil] at this
  obtain ⟨s1, s2, s3, s4, _⟩ := segmentsOfSlot_spec date_raw slot
    (slotChangesSorted slot changes) (slotChangesSorted_pairwise slot changes)
    hlt' hne
  rw [hfilter]
  exact ⟨s1, s2, s3, s4⟩

/-- C3 (counterexample): a slot-0 change with minutes = 1500 (a value the
decoder can produce, see C5) makes `build_activity_segments` emit the
segment `[1500, 1440)`, whose start is not below its end — the claimed
invariant fails without a `minutes < 1440` hypothesis. -/
theorem build_activity_segments_backwards_segment :
    (∃ c ∈ ([{ slot := 0, driving_status := 0, card_status := 0, activity := 0, minutes := 1500 }] : List ActivityChangeInfo), c.slot = 0) ∧
    ¬ (∀ s ∈ (build_activity_segments 0
        [{ slot := 0, driving_status := 0, card_status := 0, activity := 0, minutes := 1500 }]).filter (fun s => s.slot == 0),
        s.start_minute < s.end_minute) := by
  decide

/-- Witness for C3's amended theorem: one slot-0 change at minute 0. -/
theorem build_activity_segments_slot_spec_witness :
    ((0 : Nat) = 0 ∨ (0 : Nat) = 1) ∧
    (((build_activity_segments 5 [{ slot := 0, driving_status := 0, card_status := 0, activity := 2, minutes := 0 }]).filter
        (fun s => s.slot == 0)) ≠ [] ∧
    (∀ s ∈ (build_activity_segments 5 [{ slot := 0, driving_status := 0, card_status := 0, activity := 2, minutes := 0 }]).filter
        (fun s => s.slot == 0), s.start_minute < s.end_minute) ∧
    List.Chain' (fun s t => s.end_minute ≤ t.start_minute)
      ((build_activity_segments 5 [{ slot := 0, driving_status := 0, card_status := 0, activity := 2, minutes := 0 }]).filter
        (fun s => s.slot == 0)) ∧
    (((build_activity_segments 5 [{ slot := 0, driving_status := 0, card_status := 0, activity := 2, minutes := 0 }]).filter
        (fun s => s.slot == 0)).getLast?.map (fun s => s.end_minute) =
      some 1440)) :=
  ⟨Or.inl rfl,
   build_activity_segments_slot_spec 5
     [{ slot := 0, driving_status := 0, card_status := 0, activity := 2, minutes := 0 }] 0 (Or.inl rfl) (by decide) (by decide)⟩

/-! ## Claim C2: supporting lemmas. -/

theorem natToBytesBE_length (len n : Nat) : (natToBytesBE len n).length = len := by
  induction len generalizing n with
  | zero => rfl
  | succ k ih => simp [natToBytesBE, ih]

theorem natToBytesBE_bytes : ∀ (len n : Nat), ∀ b ∈ natToBytesBE len n, b < 256
  | 0, n, b, hb => by simp [natToBytesBE] at hb
  | len + 1, n, b, hb => by
    simp only [natToBytesBE, List.mem_append, List.mem_singleton] at hb
    rcases hb with h | h
    · exact natToBytesBE_bytes len (n / 256) b h
    · subst h; exact Nat.mod_lt _ (by norm_num)

theorem beNat_foldl_lt (l : List Nat) :
    ∀ acc : Nat, (∀ b ∈ l, b < 256) →
      l.foldl (fun acc b => acc * 256 + b) acc < (acc + 1) * 256 ^ l.length := by
  induction l with
  | nil => intro acc _; simp
  | cons x xs ih =>
    intro acc hb
    have hx : x < 256 := hb x (List.mem_cons_self x xs)
    have h2 := ih (acc * 256 + x) (fun b h => hb b (List.mem_cons_of_mem x h))
    calc (x :: xs).foldl (fun acc b => acc * 256 + b) acc
        = xs.foldl (fun acc b => acc * 256 + b) (acc * 256 + x) := rfl
      _ < (acc * 256 + x + 1) * 256 ^ xs.length := h2
      _ ≤ ((acc + 1) * 256) * 256 ^ xs.length := by
          have : acc * 256 + x + 1 ≤ (acc + 1) * 256 := by omega
          exact Nat.mul_le_mul_right _ this
      _ = (acc + 1) * 256 ^ (x :: xs).length := by
          simp [List.length_cons, Nat.pow_succ]
          ring

theorem beNat_lt_of_bytes {l : List Nat} (h : ∀ b ∈ l, b < 256) :
    beNat l < 256 ^ l.length := by
  have := beNat_foldl_lt l 0 h
  simpa [beNat] using this

theorem pyByteLenAux_spec : ∀ (fuel n : Nat), n ≤ fuel →
    n < 256 ^ pyByteLenAux fuel n ∧
    (n ≠ 0 → 256 ^ (pyByteLenAux fuel n - 1) ≤ n)
  | 0, n, h => by
    have : n = 0 := by omega
    subst this
    simp [pyByteLenAux]
  | fuel + 1, n, h => by
    by_cases h0 : n = 0
    · subst h0; simp [pyByteLenAux]
    · have hdiv : n / 256 ≤ fuel := by
        have : n / 256 < n := Nat.div_lt_self (by omega) (by norm_num)
        omega
      obtain ⟨ih1, ih2⟩ := pyByteLenAux_spec fuel (n / 256) hdiv
      rw [pyByteLenAux, if_neg h0]
      constructor
      · calc n < 256 * (n / 256 + 1) := by omega
          _ ≤ 256 * 256 ^ pyByteLenAux fuel (n / 256) :=
              Nat.mul_le_mul_left _ (by omega)
          _ = 256 ^ (pyByteLenAux fuel (n / 256) + 1) := by
              rw [Nat.pow_succ]; ring
      · intro _
        by_cases hq : n / 256 = 0
        · have hz : pyByteLenAux fuel (n / 256) = 0 := by
            cases fuel with
            | zero => rfl
            | succ k => rw [pyByteLenAux, if_pos hq]
          simp [hz]
          omega
        · have hlow := ih2 hq
          have hpos : 1 ≤ pyByteLenAux fuel (n / 256) := by
            by_contra hc
            have hz : pyByteLenAux fuel (n / 256) = 0 := by omega
            rw [hz] at ih1
            simp at ih1
            omega
          have hle : 256 ^ pyByteLenAux fuel (n / 256) ≤ 256 * (n / 256) := by
            calc 256 ^ pyByteLenAux fuel (n / 256)
                = 256 * 256 ^ (pyByteLenAux fuel (n / 256) - 1) := by
                  rw [← Nat.pow_succ']
                  congr 1
                  omega
              _ ≤ 256 * (n / 256) := Nat.mul_le_mul_left _ hlow
          have : 256 * (n / 256) ≤ n := by omega
          simp only [Nat.add_sub_cancel]
          omega

theorem pyByteLen_lt (n : Nat) : n < 256 ^ pyByteLen n :=
  (pyByteLenAux_spec n n (le_refl n)).1

theorem pyByteLen_le_of_ne (n : Nat) (h : n ≠ 0) : 256 ^ (pyByteLen n - 1) ≤ n :=
  (pyByteLenAux_spec n n (le_refl n)).2 h

theorem pyByteLen_eq_128_iff {n : Nat} (hub : n < 256 ^ 128) :
    pyByteLen n = 128 ↔ 256 ^ 127 ≤ n := by
  constructor
  · intro h128
    have hne : n ≠ 0 := by
      intro h0
      rw [h0] at h128
      simp [pyByteLen, pyByteLenAux] at h128
    have := pyByteLen_le_of_ne n hne
    rw [h128] at this
    simpa using this
  · intro hlb
    have hne : n ≠ 0 := by
      intro h0
      rw [h0] at hlb
      exact absurd hlb (Nat.not_le.mpr (Nat.pos_pow_of_pos 127 (by norm_num)))
    have h1 := pyByteLen_lt n
    have h2 := pyByteLen_le_of_ne n hne
    set L := pyByteLen n with hL
    have hgt : 127 < L := by
      by_contra hc
      have : 256 ^ L ≤ 256 ^ 127 :=
        Nat.pow_le_pow_right (by norm_num) (by omega)
      omega
    have hlt : L - 1 < 128 := by
      by_contra hc
      have : 256 ^ 128 ≤ 256 ^ (L - 1) :=
        Nat.pow_le_pow_right (by norm_num) (by omega)
      omega
    omega

theorem natToBytesBE_head : ∀ (k n : Nat),
    (natToBytesBE (k + 1) n).getD 0 0 = n / 256 ^ k % 256
  | 0, n => by simp [natToBytesBE]
  | k + 1, n => by
    have hlen : (natToBytesBE (k + 1) (n / 256)).length = k + 1 :=
      natToBytesBE_length _ _
    have ih := natToBytesBE_head k (n / 256)
    rw [natToBytesBE]
    rw [List.getD_eq_getElem?_getD, List.getElem?_append_left (by omega),
      ← List.getD_eq_getElem?_getD, ih]
    rw [Nat.div_div_eq_div_mul, ← Nat.pow_succ']

theorem headD_eq_getD (l : List Nat) (d : Nat) : l.headD d = l.getD 0 d := by
  cases l <;> rfl

theorem getLastD_eq_getD (l : List Nat) (d : Nat) :
    l.getLastD d = l.getD (l.length - 1) d := by
  rw [List.getLastD_eq_getLast?, List.getLast?_eq_getElem?, ← List.getD_eq_getElem?_getD]

set_option maxRecDepth 4000

theorem verify_cert_eq (data key_n key_e dec : List Nat)
    (hlen : ¬ data.length < _CARD_CERT_LEN) (h0 : beNat key_n ≠ 0)
    (hdec : dec = natToBytesBE (pyByteLen (beNat key_n))
      (beNat (data.take 128) ^ beNat key_e % beNat key_n)) :
    _verify_driver_card_certificate data key_n key_e =
      (if dec.length ≠ _CARD_SIGNATURE_LEN then Except.ok (false, none)
       else if dec.headD 0 ≠ 0x6A || dec.getLastD 0 ≠ 0xBC then Except.ok (false, none)
       else if sha1 ((dec.drop 1).take 106 ++ (data.drop 128).take 58) ≠
           (dec.drop 107).take 20 then Except.ok (false, none)
       else Except.ok (true, some ((dec.drop 1).take 106 ++ (data.drop 128).take 58))) := by
  subst hdec
  simp only [_verify_driver_card_certificate, _rsa_decode, if_neg hlen, if_neg h0]

theorem verify_cert_of_iso (data key_n key_e : List Nat)
    (hlen : 194 ≤ data.length) (hub : beNat key_n < 256 ^ 128)
    (hiso : IsoEnvelopeOk key_n key_e data) :
    _verify_driver_card_certificate data key_n key_e =
      Except.ok (true, some
        (((natToBytesBE 128 (beNat (data.take 128) ^ beNat key_e % beNat key_n)).drop 1).take 106 ++
          (data.drop 128).take 58)) := by
  obtain ⟨hpos, h6A, hBC, hsha⟩ := hiso
  have h0 : beNat key_n ≠ 0 := by omega
  have hL : pyByteLen (beNat key_n) = 128 := by
    rw [pyByteLen_eq_128_iff hub]
    by_contra hc
    push_neg at hc
    have hv : beNat (data.take 128) ^ beNat key_e % beNat key_n < 256 ^ 127 := by
      have := Nat.mod_lt (beNat (data.take 128) ^ beNat key_e) hpos
      omega
    have hh : (natToBytesBE 128 (beNat (data.take 128) ^ beNat key_e % beNat key_n)).getD 0 0 =
        beNat (data.take 128) ^ beNat key_e % beNat key_n / 256 ^ 127 % 256 :=
      natToBytesBE_head 127 _
    rw [Nat.div_eq_of_lt hv] at hh
    omega
  rw [verify_cert_eq data key_n key_e _ (by simp only [_CARD_CERT_LEN]; omega) h0 (by rw [hL])]
  have hmlen : (natToBytesBE 128 (beNat (data.take 128) ^ beNat key_e % beNat key_n)).length = 128 :=
    natToBytesBE_length _ _
  have hhead : (natToBytesBE 128 (beNat (data.take 128) ^ beNat key_e % beNat key_n)).headD 0 = 0x6A := by
    rw [headD_eq_getD]; exact h6A
  have hlast : (natToBytesBE 128 (beNat (data.take 128) ^ beNat key_e % beNat key_n)).getLastD 0 = 0xBC := by
    rw [getLastD_eq_getD, hmlen]; exact hBC
  rw [if_neg (by rw [hmlen]; simp [_CARD_SIGNATURE_LEN])]
  rw [hhead, hlast]
  rw [if_neg (by decide)]
  rw [hsha, if_neg (fun hne => hne rfl)]

set_option maxHeartbeats 1000000 in
theorem verify_cert_true_elim {data key_n key_e : List Nat} {c : Option (List Nat)}
    (h : _verify_driver_card_certificate data key_n key_e = Except.ok (true, c)) :
    IsoEnvelopeOk key_n key_e data ∧
      c = some (((natToBytesBE 128 (beNat (data.take 128) ^ beNat key_e % beNat key_n)).drop 1).take 106 ++
        (data.drop 128).take 58) := by
  by_cases hlen : data.length < _CARD_CERT_LEN
  · simp [_verify_driver_card_certificate, hlen] at h
  by_cases h0 : beNat key_n = 0
  · simp [_verify_driver_card_certificate, _rsa_decode, hlen, h0] at h
  rw [verify_cert_eq data key_n key_e _ hlen h0 rfl] at h
  by_cases hL : (natToBytesBE (pyByteLen (beNat key_n))
      (beNat (data.take 128) ^ beNat key_e % beNat key_n)).length ≠ _CARD_SIGNATURE_LEN
  · rw [if_pos hL] at h; simp at h
  rw [if_neg hL] at h
  push_neg at hL
  rw [natToBytesBE_length, _CARD_SIGNATURE_LEN] at hL
  rw [hL] at h
  have hpos : 0 < beNat key_n := Nat.pos_of_ne_zero h0
  by_cases hhl : ((natToBytesBE 128 (beNat (data.take 128) ^ beNat key_e % beNat key_n)).headD 0 ≠ 0x6A ||
      (natToBytesBE 128 (beNat (data.take 128) ^ beNat key_e % beNat key_n)).getLastD 0 ≠ 0xBC : Bool) = true
  · rw [if_pos hhl] at h; simp at h
  rw [if_neg hhl] at h
  simp only [Bool.or_eq_true, decide_eq_true_eq, not_or, Decidable.not_not] at hhl
  obtain ⟨hhead, hlast⟩ := hhl
  by_cases hsha : sha1 (((natToBytesBE 128 (beNat (data.take 128) ^ beNat key_e % beNat key_n)).drop 1).take 106 ++
      (data.drop 128).take 58) ≠
      ((natToBytesBE 128 (beNat (data.take 128) ^ beNat key_e % beNat key_n)).drop 107).take 20
  · rw [if_pos hsha] at h; simp at h
  rw [if_neg hsha] at h
  push_neg at hsha
  have hc : c = some (((natToBytesBE 128 (beNat (data.take 128) ^ beNat key_e % beNat key_n)).drop 1).take 106 ++
      (data.drop 128).take 58) := by
    exact (congrArg Prod.snd (Except.ok.inj h)).symm
  refine ⟨⟨hpos, ?_, ?_, hsha⟩, hc⟩
  · rw [← headD_eq_getD]; exact hhead
  · have := getLastD_eq_getD (natToBytesBE 128 (beNat (data.take 128) ^ beNat key_e % beNat key_n)) 0
    rw [natToBytesBE_length] at this
    rw [← this]
    exact hlast

theorem verify_certs_eq_err (ca_data card_data : List Nat) (e : String)
    (hnca : ¬ ca_data.length < _CARD_CERT_LEN) (hncard : ¬ card_data.length < _CARD_CERT_LEN)
    (hc : _verify_driver_card_certificate ca_data _EU_RSA_N _EU_RSA_E = Except.error e) :
    _verify_driver_card_certificates ca_data card_data = Except.error e := by
  unfold _verify_driver_card_certificates
  rw [if_neg (by simp [hnca, hncard]), hc]

theorem verify_certs_eq_none (ca_data card_data : List Nat) (ca_ok : Bool)
    (hnca : ¬ ca_data.length < _CARD_CERT_LEN) (hncard : ¬ card_data.length < _CARD_CERT_LEN)
    (hc : _verify_driver_card_certificate ca_data _EU_RSA_N _EU_RSA_E = Except.ok (ca_ok, none)) :
    _verify_driver_card_certificates ca_data card_data =
      Except.ok (false, some "CA certificate invalid") := by
  unfold _verify_driver_card_certificates
  rw [if_neg (by simp [hnca, hncard]), hc]

theorem verify_certs_eq_notok (ca_data card_data content : List Nat)
    (hnca : ¬ ca_data.length < _CARD_CERT_LEN) (hncard : ¬ card_data.length < _CARD_CERT_LEN)
    (hc : _verify_driver_card_certificate ca_data _EU_RSA_N _EU_RSA_E =
      Except.ok (false, some content)) :
    _verify_driver_card_certificates ca_data card_data =
      Except.ok (false, some "CA certificate invalid") := by
  unfold _verify_driver_card_certificates
  rw [if_neg (by simp [hnca, hncard]), hc]
  rfl

theorem verify_certs_eq_cerr (ca_data card_data content : List Nat) (e : String)
    (hnca : ¬ ca_data.length < _CARD_CERT_LEN) (hncard : ¬ card_data.length < _CARD_CERT_LEN)
    (hc : _verify_driver_card_certificate ca_data _EU_RSA_N _EU_RSA_E =
      Except.ok (true, some content))
    (h1 : ((content.drop 28).take 128).length = 128)
    (h2 : ((content.drop 156).take 8).length = 8)
    (hc2 : _verify_driver_card_certificate card_data ((content.drop 28).take 128)
      ((content.drop 156).take 8) = Except.error e) :
    _verify_driver_card_certificates ca_data card_data = Except.error e := by
  unfold _verify_driver_card_certificates
  rw [if_neg (by simp [hnca, hncard]), hc]
  show (if ((content.drop 28).take 128).length ≠ 128 || ((content.drop 156).take 8).length ≠ 8 then
          Except.ok (false, some "Member state key invalid")
        else
          match _verify_driver_card_certificate card_data ((content.drop 28).take 128)
              ((content.drop 156).take 8) with
          | Except.error e => Except.error e
          | Except.ok (card_ok, _) =>
            if !card_ok then Except.ok (false, some "Card certificate invalid")
            else Except.ok (true, none)) = _
  rw [if_neg (by simp [h1, h2]), hc2]

theorem verify_certs_eq_card (ca_data card_data content : List Nat) (card_ok : Bool)
    (cc : Option (List Nat))
    (hnca : ¬ ca_data.length < _CARD_CERT_LEN) (hncard : ¬ card_data.length < _CARD_CERT_LEN)
    (hc : _verify_driver_card_certificate ca_data _EU_RSA_N _EU_RSA_E =
      Except.ok (true, some content))
    (h1 : ((content.drop 28).take 128).length = 128)
    (h2 : ((content.drop 156).take 8).length = 8)
    (hc2 : _verify_driver_card_certificate card_data ((content.drop 28).take 128)
      ((content.drop 156).take 8) = Except.ok (card_ok, cc)) :
    _verify_driver_card_certificates ca_data card_data =
      (if !card_ok then Except.ok (false, some "Card certificate invalid")
       else Except.ok (true, none)) := by
  unfold _verify_driver_card_certificates
  rw [if_neg (by simp [hnca, hncard]), hc]
  show (if ((content.drop 28).take 128).length ≠ 128 || ((content.drop 156).take 8).length ≠ 8 then
          Except.ok (false, some "Member state key invalid")
        else
          match _verify_driver_card_certificate card_data ((content.drop 28).take 128)
              ((content.drop 156).take 8) with
          | Except.error e => Except.error e
          | Except.ok (card_ok, _) =>
            if !card_ok then Except.ok (false, some "Card certificate invalid")
            else Except.ok (true, none)) = _
  rw [if_neg (by simp [h1, h2]), hc2]

theorem content_facts (ca_data : List Nat) (hca : 194 ≤ ca_data.length)
    (hba : ∀ b ∈ ca_data, b < 256) :
    (((natToBytesBE 128 (beNat (ca_data.take 128) ^ beNat _EU_RSA_E % beNat _EU_RSA_N)).drop 1).take 106 ++
      (ca_data.drop 128).take 58).length = 164 ∧
    ∀ b ∈ (((natToBytesBE 128 (beNat (ca_data.take 128) ^ beNat _EU_RSA_E % beNat _EU_RSA_N)).drop 1).take 106 ++
      (ca_data.drop 128).take 58), b < 256 := by
  constructor
  · simp only [List.length_append, List.length_take, List.length_drop, natToBytesBE_length]
    omega
  · intro b hb
    rcases List.mem_append.mp hb with hmem | hmem
    · exact natToBytesBE_bytes _ _ b (List.mem_of_mem_drop (List.mem_of_mem_take hmem))
    · exact hba b (List.mem_of_mem_drop (List.mem_of_mem_take hmem))

theorem member_slice_facts (content : List Nat) (hclen : content.length = 164)
    (hcb : ∀ b ∈ content, b < 256) :
    ((content.drop 28).take 128).length = 128 ∧ ((content.drop 156).take 8).length = 8 ∧
      beNat ((content.drop 28).take 128) < 256 ^ 128 := by
  have h1 : ((content.drop 28).take 128).length = 128 := by
    simp only [List.length_take, List.length_drop, hclen]
    omega
  have h2 : ((content.drop 156).take 8).length = 8 := by
    simp only [List.length_take, List.length_drop, hclen]
    omega
  refine ⟨h1, h2, ?_⟩
  have hb : ∀ b ∈ (content.drop 28).take 128, b < 256 := fun b hbm =>
    hcb b (List.mem_of_mem_drop (List.mem_of_mem_take hbm))
  have hlt := beNat_lt_of_bytes hb
  rwa [h1] at hlt

theorem eu_rsa_n_ub : beNat _EU_RSA_N < 256 ^ 128 := by decide

set_option maxHeartbeats 1600000 in
/-- C2: for certificate buffers of at least 194 bytes (with byte-valued
entries on the CA side), the chain verifier reports success exactly when
both ISO 9796-2 envelope checks pass: the CA certificate under the pinned
EU root key, and the card certificate under the member-state key recovered
from bytes [28:156] and [156:164] of the CA content. -/
theorem verify_certificates_iff (ca_data card_data : List Nat)
    (hca : 194 ≤ ca_data.length) (hcard : 194 ≤ card_data.length)
    (hba : ∀ b ∈ ca_data, b < 256) :
    _verify_driver_card_certificates ca_data card_data = Except.ok (true, none) ↔
      CertChainSpecOk ca_data card_data := by
  have heuub : beNat _EU_RSA_N < 256 ^ 128 := eu_rsa_n_ub
  have hnca : ¬ ca_data.length < _CARD_CERT_LEN := by simp only [_CARD_CERT_LEN]; omega
  have hncard : ¬ card_data.length < _CARD_CERT_LEN := by simp only [_CARD_CERT_LEN]; omega
  obtain ⟨hclen, hcb⟩ := content_facts ca_data hca hba
  obtain ⟨hmknlen, hmkelen, hmub⟩ := member_slice_facts _ hclen hcb
  constructor
  · intro h
    cases hc : _verify_driver_card_certificate ca_data _EU_RSA_N _EU_RSA_E with
    | error e =>
      rw [verify_certs_eq_err _ _ _ hnca hncard hc] at h
      exact absurd h (by simp)
    | ok p =>
      obtain ⟨ca_ok, ca_content⟩ := p
      cases ca_content with
      | none =>
        rw [verify_certs_eq_none _ _ _ hnca hncard hc] at h
        exact absurd h (by simp)
      | some content =>
        cases ca_ok with
        | false =>
          rw [verify_certs_eq_notok _ _ _ hnca hncard hc] at h
          exact absurd h (by simp)
        | true =>
          obtain ⟨hisoCA, hceq⟩ := verify_cert_true_elim hc
          have hcontent := Option.some.inj hceq
          rw [hcontent] at hc
          cases hc2 : _verify_driver_card_certificate card_data
              ((((((natToBytesBE 128 (beNat (ca_data.take 128) ^ beNat _EU_RSA_E % beNat _EU_RSA_N)).drop 1).take 106 ++
                (ca_data.drop 128).take 58)).drop 28).take 128)
              ((((((natToBytesBE 128 (beNat (ca_data.take 128) ^ beNat _EU_RSA_E % beNat _EU_RSA_N)).drop 1).take 106 ++
                (ca_data.drop 128).take 58)).drop 156).take 8) with
          | error e =>
            rw [verify_certs_eq_cerr _ _ _ _ hnca hncard hc hmknlen hmkelen hc2] at h
            exact absurd h (by simp)
          | ok q =>
            obtain ⟨card_ok, cc⟩ := q
            cases card_ok with
            | false =>
              rw [verify_certs_eq_card _ _ _ _ _ hnca hncard hc hmknlen hmkelen hc2] at h
              exact absurd h (by simp)
            | true =>
              exact ⟨hisoCA, (verify_cert_true_elim hc2).1⟩
  · intro hchain
    obtain ⟨hisoCA, hisoCard⟩ := hchain
    have hcaeq := verify_cert_of_iso ca_data _EU_RSA_N _EU_RSA_E hca heuub hisoCA
    have hcardeq := verify_cert_of_iso card_data _ _ hcard hmub hisoCard
    rw [verify_certs_eq_card _ _ _ _ _ hnca hncard hcaeq hmknlen hmkelen hcardeq]
    rfl

set_option exponentiation.threshold 70000 in
set_option maxRecDepth 8000 in
theorem verify_certificates_iff_witness :
    _verify_driver_card_certificates (List.replicate 194 0) (List.replicate 194 0) ≠
      Except.ok (true, none) := by
  intro h
  have hchain := (verify_certificates_iff (List.replicate 194 0) (List.replicate 194 0)
    (by simp) (by simp)
    (fun b hb => by rw [List.eq_of_mem_replicate hb]; norm_num)).mp h
  have h6A := hchain.1.2.1
  exact absurd h6A (by decide)

theorem filters_empty_iff (entries : List CardEntry) (da sa : Nat) :
    ((entries.filter (fun x => x.appendix == da)).isEmpty &&
      (entries.filter (fun x => x.appendix == sa)).isEmpty) = true ↔
      ¬ SchemeEntriesExist entries da sa := by
  simp only [Bool.and_eq_true, List.isEmpty_iff, List.filter_eq_nil_iff, beq_iff_eq]
  unfold SchemeEntriesExist
  constructor
  · rintro ⟨h1, h2⟩ ⟨e, he, hor⟩
    cases hor with
    | inl hc => exact h1 e he hc
    | inr hc => exact h2 e he hc
  · intro h
    constructor
    · intro e he hc
      exact h ⟨e, he, Or.inl hc⟩
    · intro e he hc
      exact h ⟨e, he, Or.inr hc⟩

theorem schemeResult_none_iff (entries : List CardEntry) (rs : Bool)
    (rule : Option CardLengthRule) (s : String) :
    schemeResult entries rs rule s = none ↔
      ∀ da sa sl, _CARD_APPENDIX_SCHEMES s = some (da, sa, sl) →
        ¬ SchemeEntriesExist entries da sa := by
  cases hinfo : _CARD_APPENDIX_SCHEMES s with
  | none => simp [schemeResult, hinfo]
  | some info =>
    obtain ⟨da, sa, sl⟩ := info
    simp only [schemeResult, hinfo]
    constructor
    · intro h da' sa' sl' hinfo'
      obtain ⟨h1, h2, h3⟩ : da = da' ∧ sa = sa' ∧ sl = sl' := by simpa using hinfo'
      subst h1
      subst h2
      by_cases hguard : ((entries.filter (fun x => x.appendix == da)).isEmpty &&
          (entries.filter (fun x => x.appendix == sa)).isEmpty) = true
      · exact (filters_empty_iff entries da sa).mp hguard
      · rw [if_neg hguard] at h
        exact absurd h (by simp)
    · intro h
      rw [if_pos ((filters_empty_iff entries da sa).mpr (h da sa sl rfl))]

theorem rule_bridge (rule : Option CardLengthRule) (len : Nat) :
    RuleSatisfied rule len ↔
      ∀ ru, rule = some ru → _validate_card_length len ru = true := by
  cases rule with
  | none => simp [RuleSatisfied]
  | some ru =>
    cases ru with
    | min n => simp [RuleSatisfied, _validate_card_length]
    | range lo hi => simp [RuleSatisfied, _validate_card_length]

theorem schemeResult_valid_iff (entries : List CardEntry) (rs : Bool)
    (rule : Option CardLengthRule) (s : String) :
    (∃ r, schemeResult entries rs rule s = some r ∧ r.2.1 = true) ↔
      ∃ da sa sl, _CARD_APPENDIX_SCHEMES s = some (da, sa, sl) ∧
        SchemeSpecValid entries rs rule da sa sl := by
  cases hinfo : _CARD_APPENDIX_SCHEMES s with
  | none => simp [schemeResult, hinfo]
  | some info =>
    obtain ⟨da, sa, sl⟩ := info
    have hRHS : (∃ da' sa' sl', (some (da, sa, sl) : Option (Nat × Nat × Nat)) = some (da', sa', sl') ∧
        SchemeSpecValid entries rs rule da' sa' sl') ↔ SchemeSpecValid entries rs rule da sa sl := by
      constructor
      · rintro ⟨da', sa', sl', heq, hv⟩
        obtain ⟨h1, h2, h3⟩ : da = da' ∧ sa = sa' ∧ sl = sl' := by simpa using heq
        subst h1
        subst h2
        subst h3
        exact hv
      · intro hv
        exact ⟨da, sa, sl, rfl, hv⟩
    rw [hRHS]
    cases hD : (entries.filter (fun x => x.appendix == da)).head? with
    | none =>
      have hDnil : entries.filter (fun x => x.appendix == da) = [] := by
        simpa using hD
      have hR : ¬ SchemeSpecValid entries rs rule da sa sl := by
        rintro ⟨e, he, _⟩
        rw [hD] at he
        exact absurd he (by simp)
      simp only [hR, iff_false]
      rintro ⟨r, hr, hv⟩
      simp only [schemeResult, hinfo] at hr
      cases hSE : (entries.filter (fun x => x.appendix == sa)).isEmpty with
      | true => simp [hDnil, hSE] at hr
      | false =>
        simp only [hDnil, hSE, List.isEmpty_nil, Bool.true_and, Bool.false_eq_true,
          if_false, List.head?_nil] at hr
        obtain rfl := Option.some.inj hr
        cases rs with
        | false => simp at hv
        | true =>
          cases hS : (entries.filter (fun x => x.appendix == sa)).head? with
          | none => simp [hS] at hv
          | some g =>
            by_cases hlen : g.length = sl
            · simp [hS, hlen] at hv
            · simp [hS, hlen] at hv
    | some e =>
      have hDne : entries.filter (fun x => x.appendix == da) ≠ [] := by
        intro hnil
        rw [hnil] at hD
        exact absurd hD (by simp)
      have hDe : (entries.filter (fun x => x.appendix == da)).isEmpty = false := by
        simpa [List.isEmpty_iff] using hDne
      simp only [schemeResult, hinfo, hD, hDe, Bool.false_and, Bool.false_eq_true, if_false]
      cases rule with
      | none =>
        cases rs with
        | false => simp [SchemeSpecValid, RuleSatisfied, hD]
        | true =>
          cases hS : (entries.filter (fun x => x.appendix == sa)).head? with
          | none => simp [SchemeSpecValid, RuleSatisfied, hD, hS]
          | some g =>
            by_cases hlen : g.length = sl
            · simp [SchemeSpecValid, RuleSatisfied, hD, hS, hlen]
            · simp [SchemeSpecValid, RuleSatisfied, hD, hS, hlen]
      | some ru =>
        cases hv : _validate_card_length e.length ru with
        | false =>
          have hrs : ¬ RuleSatisfied (some ru) e.length := by
            rw [rule_bridge]
            intro hall
            have hcontra := hall ru rfl
            rw [hv] at hcontra
            exact absurd hcontra (by simp)
          cases rs with
          | false => simp [SchemeSpecValid, hD, hv, hrs]
          | true =>
            cases hS : entries.find? (fun x => x.appendix == sa) with
            | none => simp [SchemeSpecValid, hD, hS, hv, hrs]
            | some g =>
              by_cases hlen : g.length = sl
              · simp [SchemeSpecValid, hD, hS, hlen, hv, hrs]
              · simp [SchemeSpecValid, hD, hS, hlen, hv, hrs]
        | true =>
          have hrs : RuleSatisfied (some ru) e.length := by
            rw [rule_bridge]
            intro ru' heq
            obtain rfl := Option.some.inj heq
            exact hv
          cases rs with
          | false => simp [SchemeSpecValid, hD, hv, hrs]
          | true =>
            cases hS : (entries.filter (fun x => x.appendix == sa)).head? with
            | none => simp [SchemeSpecValid, hD, hS, hv, hrs]
            | some g =>
              by_cases hlen : g.length = sl
              · simp [SchemeSpecValid, hD, hS, hlen, hv, hrs]
              · simp [SchemeSpecValid, hD, hS, hlen, hv, hrs]

/-- C9: for every entry list and part configuration, `_validate_card_entries`
returns "valid" iff some scheme in the part's list is valid in the claim's
sense (data entry present, length rule satisfied, and, when required, a
signature entry with exactly the scheme's length); "missing" iff no scheme
has any data or signature entries; and "invalid" iff some scheme has
entries but no scheme is valid. -/
theorem validate_card_entries_spec (entries : List CardEntry) (requires_sig : Bool)
    (rule : Option CardLengthRule) (schemes : List String) :
    ((_validate_card_entries entries requires_sig rule schemes).1 = "valid" ↔
      ∃ s ∈ schemes, ∃ da sa sl, _CARD_APPENDIX_SCHEMES s = some (da, sa, sl) ∧
        SchemeSpecValid entries requires_sig rule da sa sl) ∧
    ((_validate_card_entries entries requires_sig rule schemes).1 = "missing" ↔
      ∀ s ∈ schemes, ∀ da sa sl, _CARD_APPENDIX_SCHEMES s = some (da, sa, sl) →
        ¬ SchemeEntriesExist entries da sa) ∧
    ((_validate_card_entries entries requires_sig rule schemes).1 = "invalid" ↔
      ¬ (∀ s ∈ schemes, ∀ da sa sl, _CARD_APPENDIX_SCHEMES s = some (da, sa, sl) →
          ¬ SchemeEntriesExist entries da sa) ∧
      ¬ ∃ s ∈ schemes, ∃ da sa sl, _CARD_APPENDIX_SCHEMES s = some (da, sa, sl) ∧
        SchemeSpecValid entries requires_sig rule da sa sl) := by
  by_cases hE : entries = []
  · subst hE
    have heq : _validate_card_entries [] requires_sig rule schemes = ("missing", none) := rfl
    rw [heq]
    refine ⟨?_, ?_, ?_⟩
    · constructor
      · intro h
        exact absurd h (by simp)
      · rintro ⟨s, hs, da, sa, sl, hinfo, e, he, _⟩
        simp at he
    · constructor
      · rintro _ s hs da sa sl hinfo ⟨e, he, _⟩
        exact absurd he (by simp)
      · intro _
        rfl
    · constructor
      · intro h
        exact absurd h (by simp)
      · rintro ⟨hna, _⟩
        exfalso
        apply hna
        rintro s hs da sa sl hinfo ⟨e, he, _⟩
        exact absurd he (by simp)
  · have hEe : entries.isEmpty = false := by simpa [List.isEmpty_iff] using hE
    have hMissIff : schemes.filterMap (schemeResult entries requires_sig rule) = [] ↔
        ∀ s ∈ schemes, ∀ da sa sl, _CARD_APPENDIX_SCHEMES s = some (da, sa, sl) →
          ¬ SchemeEntriesExist entries da sa := by
      rw [List.filterMap_eq_nil_iff]
      constructor
      · intro h s hs
        exact (schemeResult_none_iff entries requires_sig rule s).mp (h s hs)
      · intro h s hs
        exact (schemeResult_none_iff entries requires_sig rule s).mpr (h s hs)
    have hAnyIff : ((schemes.filterMap (schemeResult entries requires_sig rule)).any
          (fun t => t.2.1)) = true ↔
        ∃ s ∈ schemes, ∃ da sa sl, _CARD_APPENDIX_SCHEMES s = some (da, sa, sl) ∧
          SchemeSpecValid entries requires_sig rule da sa sl := by
      rw [List.any_eq_true]
      constructor
      · rintro ⟨t, ht, hv⟩
        obtain ⟨s, hs, hfs⟩ := List.mem_filterMap.mp ht
        obtain ⟨da, sa, sl, hinfo, hspec⟩ :=
          (schemeResult_valid_iff entries requires_sig rule s).mp ⟨t, hfs, hv⟩
        exact ⟨s, hs, da, sa, sl, hinfo, hspec⟩
      · rintro ⟨s, hs, da, sa, sl, hinfo, hspec⟩
        obtain ⟨r, hfs, hv⟩ :=
          (schemeResult_valid_iff entries requires_sig rule s).mpr ⟨da, sa, sl, hinfo, hspec⟩
        exact ⟨r, List.mem_filterMap.mpr ⟨s, hs, hfs⟩, hv⟩
    cases hR : (schemes.filterMap (schemeResult entries requires_sig rule)).isEmpty with
    | true =>
      have hRnil : schemes.filterMap (schemeResult entries requires_sig rule) = [] := by
        simpa [List.isEmpty_iff] using hR
      have heq : _validate_card_entries entries requires_sig rule schemes = ("missing", none) := by
        simp [_validate_card_entries, hEe, hR]
      rw [heq]
      refine ⟨?_, ?_, ?_⟩
      · constructor
        · intro h
          exact absurd h (by simp)
        · intro hex
          have h1 := hAnyIff.mpr hex
          rw [hRnil] at h1
          simp at h1
      · constructor
        · intro _
          exact hMissIff.mp hRnil
        · intro _
          rfl
      · constructor
        · intro h
          exact absurd h (by simp)
        · rintro ⟨hna, _⟩
          exact absurd (hMissIff.mp hRnil) hna
    | false =>
      cases hA : ((schemes.filterMap (schemeResult entries requires_sig rule)).any
          (fun t => t.2.1)) with
      | true =>
        have heq : _validate_card_entries entries requires_sig rule schemes =
            ("valid", combineSchemeNotes (schemes.filterMap (schemeResult entries requires_sig rule))) := by
          simp [_validate_card_entries, hEe, hR, hA]
        rw [heq]
        refine ⟨?_, ?_, ?_⟩
        · constructor
          · intro _
            exact hAnyIff.mp hA
          · intro _
            rfl
        · constructor
          · intro h
            exact absurd h (by simp)
          · intro hall
            have h1 := hMissIff.mpr hall
            rw [h1] at hR
            simp at hR
        · constructor
          · intro h
            exact absurd h (by simp)
          · rintro ⟨_, hne⟩
            exact absurd (hAnyIff.mp hA) hne
      | false =>
        have heq : _validate_card_entries entries requires_sig rule schemes =
            ("invalid", combineSchemeNotes (schemes.filterMap (schemeResult entries requires_sig rule))) := by
          simp [_validate_card_entries, hEe, hR, hA]
        rw [heq]
        refine ⟨?_, ?_, ?_⟩
        · constructor
          · intro h
            exact absurd h (by simp)
          · intro hex
            have h1 := hAnyIff.mpr hex
            rw [hA] at h1
            simp at h1
        · constructor
          · intro h
            exact absurd h (by simp)
          · intro hall
            have h1 := hMissIff.mpr hall
            rw [h1] at hR
            simp at hR
        · constructor
          · intro _
            refine ⟨?_, ?_⟩
            · intro hall
              have h1 := hMissIff.mpr hall
              rw [h1] at hR
              simp at hR
            · intro hex
              have h1 := hAnyIff.mpr hex
              rw [hA] at h1
              simp at h1
          · intro _
            rfl

/-- C10: every Summary produced by `parse_summary` keeps the two container
variants mutually exclusive: a non-driver-card file has no driverCard, and
a non-vehicle-unit file has no vuIdentification, overview or
overspeedControl and empty activityDays, events, faults and
overspeedEvents. -/
theorem parse_summary_exclusive (data : List Nat) (s : DddSummary)
    (h : parse_summary data = Except.ok s) :
    (s.header.detected_type ≠ "driver_card" → s.driver_card = none) ∧
    (s.header.detected_type ≠ "vehicle_unit" →
      s.vu_identification = none ∧ s.overview = none ∧ s.overspeed_control = none ∧
      s.activity_days = [] ∧ s.events = [] ∧ s.faults = [] ∧ s.overspeed_events = []) := by
  simp only [parse_summary, bind, Except.bind, pure, Except.pure] at h
  cases hh : _parse_header_bytes (data.take HEADER_READ_LEN) data.length with
  | error e => simp [hh] at h
  | ok header =>
  simp only [hh] at h
  cases hp : _validate_parts data header with
  | error e => simp [hp] at h
  | ok parts =>
  simp only [hp] at h
  cases hdc : _parse_driver_card_summary data header with
  | error e => simp [hdc] at h
  | ok dc =>
  simp only [hdc] at h
  cases ho : _parse_overview data header with
  | error e => simp [ho] at h
  | ok ov =>
  simp only [ho] at h
  cases ha : _parse_activities data header with
  | error e => simp [ha] at h
  | ok days =>
  simp only [ha] at h
  cases hef : _parse_events_faults data header with
  | error e => simp [hef] at h
  | ok ef =>
  simp only [hef] at h
  obtain rfl := Except.ok.inj h
  constructor
  · intro hne
    show dc = none
    unfold _parse_driver_card_summary at hdc
    rw [if_pos hne] at hdc
    exact (Except.ok.inj hdc).symm
  · intro hne
    refine ⟨?_, ?_, ?_, ?_, ?_, ?_, ?_⟩
    · show _parse_vu_identification data header = none
      unfold _parse_vu_identification
      rw [if_pos hne]
    · show ov = none
      unfold _parse_overview at ho
      rw [if_pos hne] at ho
      exact (Except.ok.inj ho).symm
    · show ef.2.2.1 = none
      unfold _parse_events_faults at hef
      rw [if_pos hne] at hef
      rw [← Except.ok.inj hef]
    · show days = []
      unfold _parse_activities at ha
      rw [if_pos hne] at ha
      exact (Except.ok.inj ha).symm
    · show ef.1 = []
      unfold _parse_events_faults at hef
      rw [if_pos hne] at hef
      rw [← Except.ok.inj hef]
    · show ef.2.1 = []
      unfold _parse_events_faults at hef
      rw [if_pos hne] at hef
      rw [← Except.ok.inj hef]
    · show ef.2.2.2 = []
      unfold _parse_events_faults at hef
      rw [if_pos hne] at hef
      rw [← Except.ok.inj hef]

theorem parse_summary_exclusive_witness :
    parse_summary [0] = Except.ok
      { header := { file_size := 1
                    detected_type := "unknown"
                    detected_generation := "unknown"
                    is_valid := false
                    invalid_reason := some "Header (unknown signature)"
                    signature_hex := "00"
                    header_hex := "00"
                    header_length := 1
                    service_id := none
                    trep := none
                    trep_generation := none
                    trep_data_type := none
                    download_interface_version := none }
        parts := [{ name := "Overview", status := "not_applicable", note := some "Unknown file type" },
                  { name := "Activities", status := "not_applicable", note := some "Unknown file type" },
                  { name := "Events and faults", status := "not_applicable", note := some "Unknown file type" },
                  { name := "Detailed speed", status := "not_applicable", note := some "Unknown file type" },
                  { name := "Technical data", status := "not_applicable", note := some "Unknown file type" },
                  { name := "Company locks", status := "not_applicable", note := some "Unknown file type" },
                  { name := "Overspeeding", status := "not_applicable", note := some "Unknown file type" },
                  { name := "Faults", status := "not_applicable", note := some "Unknown file type" }]
        vu_identification := none
        overview := none
        activity_days := []
        events := []
        faults := []
        overspeed_control := none
        overspeed_events := []
        driver_card := none } ∧
    ((("unknown" : String) ≠ "driver_card" → (none : Option DriverCardSummary) = none) ∧
     (("unknown" : String) ≠ "vehicle_unit" →
       (none : Option VuIdentification) = none ∧ (none : Option VuOverview) = none ∧
       (none : Option VuOverSpeedingControlData) = none ∧ ([] : List ActivityDay) = [] ∧
       ([] : List EventRecord) = [] ∧ ([] : List FaultRecord) = [] ∧
       ([] : List OverspeedingEventRecord) = [])) := by
  have he : parse_summary [0] = Except.ok
      { header := { file_size := 1
                    detected_type := "unknown"
                    detected_generation := "unknown"
                    is_valid := false
                    invalid_reason := some "Header (unknown signature)"
                    signature_hex := "00"
                    header_hex := "00"
                    header_length := 1
                    service_id := none
                    trep := none
                    trep_generation := none
                    trep_data_type := none
                    download_interface_version := none }
        parts := [{ name := "Overview", status := "not_applicable", note := some "Unknown file type" },
                  { name := "Activities", status := "not_applicable", note := some "Unknown file type" },
                  { name := "Events and faults", status := "not_applicable", note := some "Unknown file type" },
                  { name := "Detailed speed", status := "not_applicable", note := some "Unknown file type" },
                  { name := "Technical data", status := "not_applicable", note := some "Unknown file type" },
                  { name := "Company locks", status := "not_applicable", note := some "Unknown file type" },
                  { name := "Overspeeding", status := "not_applicable", note := some "Unknown file type" },
                  { name := "Faults", status := "not_applicable", note := some "Unknown file type" }]
        vu_identification := none
        overview := none
        activity_days := []
        events := []
        faults := []
        overspeed_control := none
        overspeed_events := []
        driver_card := none } := by rfl
  exact ⟨he, parse_summary_exclusive [0] _ he⟩
